import Mathlib

/-!
Shallow embedding of the core of the byoda-python repository, covering
the certificate/secret abstraction (byoda/util/secrets/secret.py), the
schema data-class authorization engine (byoda/datamodel/dataclass.py)
and the JWT issuance/verification wrapper (byoda/requestauth/jwt.py),
together with theorems settling the frozen claims about them.

Python `str` values are modelled as `List Char` (named `PyStr`); Python
string operations used by the embedded code (split, strip, startswith,
endswith, slicing, int()/str() conversions, uuid.UUID parsing and
datetime.fromisoformat) are given executable models below. Machine-level
cryptography (RSA-OAEP, RS256 signatures, Fernet) is modelled
abstractly: a key pair is a single identifier shared by the private and
the public half, and a ciphertext or signature records the key and
parameters it was produced with, so that decryption or verification
succeeds exactly for the matching key - the interface contract of the
`cryptography` and `PyJWT` libraries, which are external to the
repository.
-/

set_option linter.unusedVariables false

deriving instance DecidableEq for Except

namespace Byoda

/-- Python strings, modelled as lists of characters. -/
abbrev PyStr := List Char

/-- Whitespace characters removed by Python `str.strip()`. -/
def isPySpace (c : Char) : Bool :=
  c == ' ' || c == '\t' || c == '\n' || c == '\r' || c == '\x0b' || c == '\x0c'

/-- Model of Python `s.startswith(p)`. -/
def pyStartsWith : PyStr → PyStr → Bool
  | _, [] => true
  | [], _ :: _ => false
  | c :: s, p :: ps => c == p && pyStartsWith s ps

/-- Model of Python `s.endswith(p)`. -/
def pyEndsWith (s p : PyStr) : Bool :=
  pyStartsWith s.reverse p.reverse

/-- Model of Python `s.strip()` (no arguments: strip whitespace at both ends). -/
def pyStrip (s : PyStr) : PyStr :=
  ((s.dropWhile isPySpace).reverse.dropWhile isPySpace).reverse

/-- Model of Python `s.split(sep)` for a one-character separator:
splits at every occurrence of `sep`, keeping empty pieces. -/
def pySplit (sep : Char) : PyStr → List PyStr
  | [] => [[]]
  | c :: rest =>
    if c == sep then [] :: pySplit sep rest
    else
      match pySplit sep rest with
      | h :: t => (c :: h) :: t
      | [] => [[c]]

/-- Split at the first occurrence of `sep`; `none` when `sep` does not occur. -/
def pySplitFirst (sep : Char) : PyStr → Option (PyStr × PyStr)
  | [] => none
  | c :: rest =>
    if c == sep then some ([], rest)
    else
      match pySplitFirst sep rest with
      | some (a, b) => some (c :: a, b)
      | none => none

/-- Model of the unpacking `a, b, c = s.split(sep, maxsplit=2)`:
`none` models the ValueError raised when there are fewer than three parts. -/
def pySplit3 (sep : Char) (s : PyStr) : Option (PyStr × PyStr × PyStr) :=
  match pySplitFirst sep s with
  | none => none
  | some (a, r) =>
    match pySplitFirst sep r with
    | none => none
    | some (b, c) => some (a, b, c)

/-- The character for a decimal digit value. -/
def digitChar (n : Nat) : Char := Char.ofNat (48 + n)

/-- The decimal value of a digit character. -/
def digitVal (c : Char) : Option Nat :=
  if 48 ≤ c.toNat && c.toNat ≤ 57 then some (c.toNat - 48) else none

/-- Decimal digits of `n`, most significant first; `fuel` bounds the recursion
and any `fuel > n` is adequate. -/
def natDigitsAux : Nat → Nat → List Char
  | 0, _ => []
  | fuel + 1, n =>
    if n < 10 then [digitChar n]
    else natDigitsAux fuel (n / 10) ++ [digitChar (n % 10)]

/-- Model of Python `str(n)` for a natural number. -/
def natStr (n : Nat) : PyStr := natDigitsAux (n + 1) n

/-- Model of Python `str(n)` for an integer. -/
def intStr (n : Int) : PyStr :=
  if n < 0 then '-' :: natStr n.natAbs else natStr n.natAbs

/-- Accumulating decimal parser: consumes digit characters only. -/
def parseNatAux : PyStr → Nat → Option Nat
  | [], acc => some acc
  | c :: cs, acc =>
    match digitVal c with
    | some d => parseNatAux cs (acc * 10 + d)
    | none => none

/-- Model of Python `int(s)`: strips whitespace, then an optional sign
followed by a non-empty run of decimal digits. (Underscore separators,
accepted by CPython, are not modelled; no call site produces them.) -/
def pyInt (s : PyStr) : Option Int :=
  let t := pyStrip s
  match t with
  | [] => none
  | c :: cs =>
    if c == '-' then
      if cs.isEmpty then none else (parseNatAux cs 0).map (fun n => -(n : Int))
    else if c == '+' then
      if cs.isEmpty then none else (parseNatAux cs 0).map (fun n => (n : Int))
    else (parseNatAux t 0).map (fun n => (n : Int))

/-- The character for a hexadecimal digit value, lowercase. -/
def hexChar (n : Nat) : Char := Char.ofNat (if n < 10 then 48 + n else 87 + n)

/-- The value of a hexadecimal digit character (either case accepted,
as by Python `int(s, 16)`). -/
def hexVal (c : Char) : Option Nat :=
  if 48 ≤ c.toNat && c.toNat ≤ 57 then some (c.toNat - 48)
  else if 97 ≤ c.toNat && c.toNat ≤ 102 then some (c.toNat - 87)
  else if 65 ≤ c.toNat && c.toNat ≤ 70 then some (c.toNat - 55)
  else none

/-- Fixed-width lowercase hexadecimal rendering of `n`, `w` digits. -/
def toHexFixed : Nat → Nat → List Char
  | 0, _ => []
  | w + 1, n => toHexFixed w (n / 16) ++ [hexChar (n % 16)]

/-- Accumulating hexadecimal parser: consumes hex-digit characters only. -/
def parseHexAux : PyStr → Nat → Option Nat
  | [], acc => some acc
  | c :: cs, acc =>
    match hexVal c with
    | some d => parseHexAux cs (acc * 16 + d)
    | none => none

/-! ### Basic lemmas about the string and number helpers -/

theorem pyStartsWith_append (p s : PyStr) : pyStartsWith (p ++ s) p = true := by
  induction p with
  | nil => cases s <;> rfl
  | cons c cs ih => simp [pyStartsWith, ih]

theorem pyEndsWith_append (a b : PyStr) : pyEndsWith (a ++ b) b = true := by
  unfold pyEndsWith
  rw [List.reverse_append]
  exact pyStartsWith_append b.reverse a.reverse

theorem dropWhile_eq_self_of_all {p : Char → Bool} {l : PyStr}
    (h : ∀ c ∈ l, p c = false) : l.dropWhile p = l := by
  cases l with
  | nil => rfl
  | cons a t => simp [List.dropWhile, h a (by simp)]

theorem pyStrip_of_all_nonspace {l : PyStr}
    (h : ∀ c ∈ l, isPySpace c = false) : pyStrip l = l := by
  unfold pyStrip
  rw [dropWhile_eq_self_of_all h, dropWhile_eq_self_of_all, List.reverse_reverse]
  intro c hc
  exact h c (by simpa using hc)

theorem pyStrip_space_cons {l : PyStr}
    (h : ∀ c ∈ l, isPySpace c = false) : pyStrip (' ' :: l) = l := by
  unfold pyStrip
  have h1 : (' ' :: l).dropWhile isPySpace = l.dropWhile isPySpace := by
    simp [List.dropWhile, isPySpace]
  rw [h1, dropWhile_eq_self_of_all h, dropWhile_eq_self_of_all, List.reverse_reverse]
  intro c hc
  exact h c (by simpa using hc)

theorem pySplit_of_not_mem {sep : Char} {l : PyStr} (h : sep ∉ l) :
    pySplit sep l = [l] := by
  induction l with
  | nil => rfl
  | cons c cs ih =>
    have hc : (c == sep) = false := by
      simp only [beq_eq_false_iff_ne]
      intro hcs
      exact h (by simp [hcs])
    have hcs : sep ∉ cs := fun hm => h (by simp [hm])
    simp [pySplit, hc, ih hcs]

theorem pySplit_single_sep {sep : Char} {a b : PyStr} (ha : sep ∉ a) (hb : sep ∉ b) :
    pySplit sep (a ++ sep :: b) = [a, b] := by
  induction a with
  | nil => simp [pySplit, pySplit_of_not_mem hb]
  | cons c cs ih =>
    have hc : (c == sep) = false := by
      simp only [beq_eq_false_iff_ne]
      intro hcs
      exact ha (by simp [hcs])
    have hcs : sep ∉ cs := fun hm => ha (by simp [hm])
    simp only [List.cons_append, pySplit, hc, Bool.false_eq_true, if_false, List.append_eq,
      ih hcs]

theorem pySplitFirst_of_not_mem {sep : Char} {l : PyStr} (h : sep ∉ l) :
    pySplitFirst sep l = none := by
  induction l with
  | nil => rfl
  | cons c cs ih =>
    have hc : (c == sep) = false := by
      simp only [beq_eq_false_iff_ne]
      intro hcs
      exact h (by simp [hcs])
    have hcs : sep ∉ cs := fun hm => h (by simp [hm])
    simp [pySplitFirst, hc, ih hcs]

theorem pySplitFirst_append {sep : Char} {a b : PyStr} (ha : sep ∉ a) :
    pySplitFirst sep (a ++ sep :: b) = some (a, b) := by
  induction a with
  | nil => simp [pySplitFirst]
  | cons c cs ih =>
    have hc : (c == sep) = false := by
      simp only [beq_eq_false_iff_ne]
      intro hcs
      exact ha (by simp [hcs])
    have hcs : sep ∉ cs := fun hm => ha (by simp [hm])
    simp [pySplitFirst, hc, ih hcs]

theorem pySplit3_parts {sep : Char} {a b c : PyStr} (ha : sep ∉ a) (hb : sep ∉ b) :
    pySplit3 sep (a ++ sep :: (b ++ sep :: c)) = some (a, b, c) := by
  unfold pySplit3
  simp only [pySplitFirst_append ha, pySplitFirst_append hb]

theorem digitVal_digitChar {d : Nat} (h : d < 10) : digitVal (digitChar d) = some d := by
  interval_cases d <;> rfl

theorem parseNatAux_append (a b : PyStr) (acc : Nat) :
    parseNatAux (a ++ b) acc =
      match parseNatAux a acc with
      | some acc2 => parseNatAux b acc2
      | none => none := by
  induction a generalizing acc with
  | nil => rfl
  | cons c cs ih =>
    simp only [List.cons_append, parseNatAux]
    cases digitVal c with
    | none => rfl
    | some d => exact ih _

theorem parseNatAux_natDigitsAux {fuel n : Nat} (h : n < fuel) (acc : Nat) :
    parseNatAux (natDigitsAux fuel n) acc =
      some (acc * 10 ^ (natDigitsAux fuel n).length + n) := by
  induction fuel generalizing n acc with
  | zero => omega
  | succ fuel ih =>
    by_cases hn : n < 10
    · simp [natDigitsAux, hn, parseNatAux, digitVal_digitChar hn]
    · have hrec : n / 10 < fuel := by
        have h1 : n / 10 < n := Nat.div_lt_self (by omega) (by omega)
        omega
      simp only [natDigitsAux, hn, if_false]
      rw [parseNatAux_append, ih hrec acc]
      simp only [parseNatAux, digitVal_digitChar (Nat.mod_lt n (by omega))]
      have hlen : (natDigitsAux fuel (n / 10) ++ [digitChar (n % 10)]).length
          = (natDigitsAux fuel (n / 10)).length + 1 := by simp
      rw [hlen]
      congr 1
      rw [pow_succ]
      have := Nat.div_add_mod n 10
      ring_nf
      omega

theorem parseNatAux_natStr (n : Nat) :
    parseNatAux (natStr n) 0 = some n := by
  have := @parseNatAux_natDigitsAux (n + 1) n (by omega) 0
  simpa [natStr] using this

theorem mem_natDigitsAux_isDigit {fuel n : Nat} {c : Char}
    (hc : c ∈ natDigitsAux fuel n) : 48 ≤ c.toNat ∧ c.toNat ≤ 57 := by
  induction fuel generalizing n with
  | zero => simp [natDigitsAux] at hc
  | succ fuel ih =>
    by_cases hn : n < 10
    · simp only [natDigitsAux, hn, if_true, List.mem_singleton] at hc
      subst hc
      have : ∀ d, d < 10 → 48 ≤ (digitChar d).toNat ∧ (digitChar d).toNat ≤ 57 := by decide
      exact this n hn
    · simp only [natDigitsAux, hn, if_false, List.mem_append, List.mem_singleton] at hc
      rcases hc with hc | hc
      · exact ih hc
      · subst hc
        have hm : n % 10 < 10 := Nat.mod_lt n (by omega)
        have : ∀ d, d < 10 → 48 ≤ (digitChar d).toNat ∧ (digitChar d).toNat ≤ 57 := by decide
        exact this _ hm

theorem natStr_ne_nil (n : Nat) : natStr n ≠ [] := by
  unfold natStr natDigitsAux
  by_cases hn : n < 10 <;> simp [hn]

theorem digit_not_space {c : Char} (h : 48 ≤ c.toNat ∧ c.toNat ≤ 57) :
    isPySpace c = false := by
  unfold isPySpace
  have h1 : c ≠ ' ' := fun he => by subst he; revert h; decide
  have h2 : c ≠ '\t' := fun he => by subst he; revert h; decide
  have h3 : c ≠ '\n' := fun he => by subst he; revert h; decide
  have h4 : c ≠ '\r' := fun he => by subst he; revert h; decide
  have h5 : c ≠ '\x0b' := fun he => by subst he; revert h; decide
  have h6 : c ≠ '\x0c' := fun he => by subst he; revert h; decide
  simp [h1, h2, h3, h4, h5, h6]

theorem digit_ne_of_toNat {c : Char} (h : 48 ≤ c.toNat ∧ c.toNat ≤ 57) :
    c ≠ '.' ∧ c ≠ '-' ∧ c ≠ '+' ∧ c ≠ '=' := by
  refine ⟨?_, ?_, ?_, ?_⟩ <;> intro he <;> subst he <;> revert h <;> decide

theorem pyInt_natStr (n : Nat) : pyInt (natStr n) = some (n : Int) := by
  unfold pyInt
  have hall : ∀ c ∈ natStr n, isPySpace c = false := fun c hc =>
    digit_not_space (mem_natDigitsAux_isDigit hc)
  rw [pyStrip_of_all_nonspace hall]
  rcases hcons : natStr n with _ | ⟨c, cs⟩
  · exact absurd hcons (natStr_ne_nil n)
  · have hcmem : c ∈ natStr n := by rw [hcons]; simp
    have hd := mem_natDigitsAux_isDigit hcmem
    have hne := digit_ne_of_toNat hd
    have hc1 : (c == '-') = false := by simp [hne.2.1]
    have hc2 : (c == '+') = false := by simp [hne.2.2.1]
    simp only [hc1, hc2, Bool.false_eq_true, if_false]
    rw [← hcons, parseNatAux_natStr n]
    rfl

theorem hexVal_hexChar {d : Nat} (h : d < 16) : hexVal (hexChar d) = some d := by
  interval_cases d <;> rfl

theorem toHexFixed_length (w n : Nat) : (toHexFixed w n).length = w := by
  induction w generalizing n with
  | zero => rfl
  | succ w ih => simp [toHexFixed, ih]

theorem mem_toHexFixed {w n : Nat} {c : Char} (hc : c ∈ toHexFixed w n) :
    ∃ d, d < 16 ∧ c = hexChar d := by
  induction w generalizing n with
  | zero => simp [toHexFixed] at hc
  | succ w ih =>
    simp only [toHexFixed, List.mem_append, List.mem_singleton] at hc
    rcases hc with hc | hc
    · exact ih hc
    · exact ⟨n % 16, Nat.mod_lt n (by omega), hc⟩

theorem parseHexAux_append (a b : PyStr) (acc : Nat) :
    parseHexAux (a ++ b) acc =
      match parseHexAux a acc with
      | some acc2 => parseHexAux b acc2
      | none => none := by
  induction a generalizing acc with
  | nil => rfl
  | cons c cs ih =>
    simp only [List.cons_append, parseHexAux]
    cases hexVal c with
    | none => rfl
    | some d => exact ih _

theorem parseHexAux_toHexFixed {w n : Nat} (h : n < 16 ^ w) (acc : Nat) :
    parseHexAux (toHexFixed w n) acc = some (acc * 16 ^ w + n) := by
  induction w generalizing n acc with
  | zero =>
    have : n = 0 := by simpa using h
    simp [toHexFixed, parseHexAux, this]
  | succ w ih =>
    have hdiv : n / 16 < 16 ^ w := by
      rw [Nat.div_lt_iff_lt_mul (by omega)]
      calc n < 16 ^ (w + 1) := h
        _ = 16 ^ w * 16 := by rw [pow_succ]
    simp only [toHexFixed]
    rw [parseHexAux_append, ih hdiv acc]
    simp only [parseHexAux, hexVal_hexChar (Nat.mod_lt n (by omega))]
    congr 1
    rw [pow_succ]
    have := Nat.div_add_mod n 16
    ring_nf
    omega

/-- The canonical hyphenated rendering of a 32-hex-digit string:
8-4-4-4-12 groups. -/
def uuidHyphenate (h : PyStr) : PyStr :=
  h.take 8 ++ '-' ::
    ((h.drop 8).take 4 ++ '-' ::
      ((h.drop 12).take 4 ++ '-' ::
        ((h.drop 16).take 4 ++ '-' :: h.drop 20)))

/-- Model of Python `str(uuid.UUID(int=n))`: the canonical 36-character
lowercase hyphenated rendering of a 128-bit value. -/
def uuidCanonical (n : Nat) : PyStr := uuidHyphenate (toHexFixed 32 n)

/-- Model of the `uuid.UUID(hex)` constructor on a plain hyphenated string:
hyphens are removed, exactly 32 hexadecimal digits must remain. (The brace,
urn-prefix and underscore forms also accepted by CPython are not modelled;
no call site produces them.) -/
def pythonUUID (s : PyStr) : Option Nat :=
  let hexs := s.filter (fun c => !(c == '-'))
  if hexs.length == 32 then parseHexAux hexs 0 else none

theorem uuidHyphenate_filter {h : PyStr}
    (hall : ∀ c ∈ h, (!(c == '-')) = true) :
    (uuidHyphenate h).filter (fun c => !(c == '-')) = h := by
  have hseg : ∀ (l : PyStr), (∀ c ∈ l, (!(c == '-')) = true) →
      l.filter (fun c => !(c == '-')) = l := fun l hl => List.filter_eq_self.mpr hl
  have h1 := hseg (h.take 8) (fun c hc => hall c (List.take_subset _ _ hc))
  have h2 := hseg ((h.drop 8).take 4)
    (fun c hc => hall c (List.drop_subset _ _ (List.take_subset _ _ hc)))
  have h3 := hseg ((h.drop 12).take 4)
    (fun c hc => hall c (List.drop_subset _ _ (List.take_subset _ _ hc)))
  have h4 := hseg ((h.drop 16).take 4)
    (fun c hc => hall c (List.drop_subset _ _ (List.take_subset _ _ hc)))
  have h5 := hseg (h.drop 20)
    (fun c hc => hall c (List.drop_subset _ _ hc))
  have e1 : (h.drop 16).take 4 ++ h.drop 20 = h.drop 16 := by
    have hd : h.drop 20 = (h.drop 16).drop 4 := by
      rw [List.drop_drop]
    rw [hd, List.take_append_drop]
  have e2 : (h.drop 12).take 4 ++ h.drop 16 = h.drop 12 := by
    have hd : h.drop 16 = (h.drop 12).drop 4 := by
      rw [List.drop_drop]
    rw [hd, List.take_append_drop]
  have e3 : (h.drop 8).take 4 ++ h.drop 12 = h.drop 8 := by
    have hd : h.drop 12 = (h.drop 8).drop 4 := by
      rw [List.drop_drop]
    rw [hd, List.take_append_drop]
  unfold uuidHyphenate
  simp only [List.filter_append, List.filter_cons]
  norm_num [h1, h2, h3, h4, h5]
  rw [e1, e2, e3, List.take_append_drop]

theorem uuidCanonical_filter (n : Nat) :
    (uuidCanonical n).filter (fun c => !(c == '-')) = toHexFixed 32 n := by
  apply uuidHyphenate_filter
  intro c hc
  obtain ⟨d, hd, rfl⟩ := mem_toHexFixed hc
  have : ∀ e, e < 16 → (!(hexChar e == '-')) = true := by decide
  exact this d hd

theorem pythonUUID_uuidCanonical {n : Nat} (h : n < 2 ^ 128) :
    pythonUUID (uuidCanonical n) = some n := by
  unfold pythonUUID
  rw [uuidCanonical_filter]
  have hlen : (toHexFixed 32 n).length = 32 := toHexFixed_length 32 n
  have h16 : n < 16 ^ 32 := by
    have : (16 : Nat) ^ 32 = 2 ^ 128 := by norm_num
    omega
  simp only [hlen]
  rw [if_pos (by norm_num)]
  rw [parseHexAux_toHexFixed h16 0]
  simp

theorem uuidCanonical_chars {n : Nat} {c : Char} (hc : c ∈ uuidCanonical n) :
    c = '-' ∨ ∃ d, d < 16 ∧ c = hexChar d := by
  unfold uuidCanonical uuidHyphenate at hc
  simp only [List.mem_append, List.mem_cons] at hc
  have hyph : ∀ {l : PyStr}, c ∈ l →
      (∀ x ∈ l, x ∈ toHexFixed 32 n) → c = '-' ∨ ∃ d, d < 16 ∧ c = hexChar d :=
    fun hm hsub => Or.inr (mem_toHexFixed (hsub c hm))
  rcases hc with hc | hc | hc | hc | hc | hc | hc | hc | hc
  · exact hyph hc (fun x hx => List.take_subset _ _ hx)
  · exact Or.inl hc
  · exact hyph hc (fun x hx => List.drop_subset _ _ (List.take_subset _ _ hx))
  · exact Or.inl hc
  · exact hyph hc (fun x hx => List.drop_subset _ _ (List.take_subset _ _ hx))
  · exact Or.inl hc
  · exact hyph hc (fun x hx => List.drop_subset _ _ (List.take_subset _ _ hx))
  · exact Or.inl hc
  · exact hyph hc (fun x hx => List.drop_subset _ _ hx)

theorem uuidCanonical_no_dot_no_space {n : Nat} {c : Char} (hc : c ∈ uuidCanonical n) :
    c ≠ '.' ∧ isPySpace c = false ∧ c ≠ '=' := by
  rcases uuidCanonical_chars hc with rfl | ⟨d, hd, rfl⟩
  · exact ⟨by decide, by decide, by decide⟩
  · have : ∀ e, e < 16 →
        hexChar e ≠ '.' ∧ isPySpace (hexChar e) = false ∧ hexChar e ≠ '=' := by decide
    exact this d hd

theorem uuidCanonical_ne_nil (n : Nat) : uuidCanonical n ≠ [] := by
  unfold uuidCanonical uuidHyphenate
  intro h
  have := congrArg List.length h
  simp at this

/-! ### Model of Python `datetime` values

`datetime.datetime` values are modelled by their microsecond count:
for an aware value (`tzOffsetSecs = some o`) `epochMicros` is the Unix
epoch instant the value denotes; for a naive value (`tzOffsetSecs = none`)
it is the civil reading of the wall-clock fields as if they were UTC.
Python equality on two aware datetimes compares the instants they denote;
an aware and a naive value are never equal. -/

structure PyDatetime where
  epochMicros : Int
  tzOffsetSecs : Option Int
deriving DecidableEq, Repr

/-- Model of Python `datetime.datetime.__eq__`. -/
def pyDatetimeEq (a b : PyDatetime) : Bool :=
  match a.tzOffsetSecs, b.tzOffsetSecs with
  | some _, some _ => a.epochMicros == b.epochMicros
  | none, none => a.epochMicros == b.epochMicros
  | _, _ => false

/-- Model of `datetime.fromtimestamp(t, tz=timezone.utc)` for an integral
timestamp. -/
def fromtimestamp (t : Int) : PyDatetime :=
  { epochMicros := t * 1000000, tzOffsetSecs := some 0 }

/-- Two decimal digit characters as a number. -/
def digit2 (a b : Char) : Option Nat :=
  match digitVal a, digitVal b with
  | some x, some y => some (10 * x + y)
  | _, _ => none

/-- Four decimal digit characters as a number. -/
def digit4 (a b c d : Char) : Option Nat :=
  match digit2 a b, digit2 c d with
  | some x, some y => some (100 * x + y)
  | _, _ => none

def isLeapYear (y : Nat) : Bool :=
  (y % 4 == 0 && y % 100 != 0) || y % 400 == 0

def daysInMonth (y m : Nat) : Nat :=
  if m = 2 then (if isLeapYear y then 29 else 28)
  else if m = 4 || m = 6 || m = 9 || m = 11 then 30
  else 31

/-- Days between 1970-01-01 and the civil date `y-m-d` (proleptic Gregorian,
valid for `y ≥ 1`). -/
def daysFromCivil (y m d : Nat) : Int :=
  let yAdj : Nat := if m ≤ 2 then y - 1 else y
  let era : Nat := yAdj / 400
  let yoe : Nat := yAdj % 400
  let mp : Nat := if m > 2 then m - 3 else m + 9
  let doy : Nat := (153 * mp + 2) / 5 + d - 1
  let doe : Nat := yoe * 365 + yoe / 4 - yoe / 100 + doy
  (era * 146097 + doe : Int) - 719468

/-- Parse a `+HH:MM` / `-HH:MM` timezone suffix; `some none` for an empty
remainder (a naive time). -/
def parseTzOffset : PyStr → Option (Option Int)
  | [] => some none
  | sign :: o1 :: o2 :: ':' :: o3 :: o4 :: [] =>
    match digit2 o1 o2, digit2 o3 o4 with
    | some oh, some om =>
      if 23 < oh || 59 < om then none
      else if sign == '+' then some (some ((oh * 3600 + om * 60 : Nat) : Int))
      else if sign == '-' then some (some (-((oh * 3600 + om * 60 : Nat) : Int)))
      else none
    | _, _ => none
  | _ => none

/-- Parse `HH:MM[:SS]` followed by an optional timezone suffix. -/
def parseIsoTime (cs : PyStr) : Option (Nat × Nat × Nat × Option Int) :=
  match cs with
  | h1 :: h2 :: ':' :: m1 :: m2 :: rest =>
    match digit2 h1 h2, digit2 m1 m2 with
    | some hh, some mm =>
      if 23 < hh || 59 < mm then none
      else
        match rest with
        | ':' :: s1 :: s2 :: rest2 =>
          match digit2 s1 s2 with
          | some ss =>
            if 59 < ss then none
            else (parseTzOffset rest2).map (fun tz => (hh, mm, ss, tz))
          | none => none
        | _ => (parseTzOffset rest).map (fun tz => (hh, mm, 0, tz))
    | _, _ => none
  | _ => none

/-- Model of Python `datetime.fromisoformat` on the common profile
`YYYY-MM-DD[<sep>HH:MM[:SS][+HH:MM]]`. (Fractional seconds, bare `HH`
times and second-resolution offsets, also accepted by CPython, are not
modelled; the embedded code never produces them.) -/
def fromisoformat (s : PyStr) : Option PyDatetime :=
  match s with
  | y1 :: y2 :: y3 :: y4 :: '-' :: m1 :: m2 :: '-' :: d1 :: d2 :: rest =>
    match digit4 y1 y2 y3 y4, digit2 m1 m2, digit2 d1 d2 with
    | some y, some mo, some dd =>
      if y = 0 || mo = 0 || 12 < mo || dd = 0 || daysInMonth y mo < dd then none
      else
        match rest with
        | [] => some { epochMicros := daysFromCivil y mo dd * 86400000000,
                       tzOffsetSecs := none }
        | _sep :: timeChars =>
          match parseIsoTime timeChars with
          | some (hh, mm, ss, tz) =>
            some { epochMicros := daysFromCivil y mo dd * 86400000000
                     + ((hh * 3600 + mm * 60 + ss : Nat) : Int) * 1000000
                     - (tz.getD 0) * 1000000,
                   tzOffsetSecs := tz }
          | none => none
    | _, _, _ => none
  | _ => none

/-! ### Abstract model of the asymmetric and symmetric primitives

A key pair is identified by a single natural number shared by its private
and public halves; a certificate carries the public identifier. An OAEP
ciphertext or a Fernet token records the key and parameters it was made
with, and decryption succeeds exactly for the matching key - the
behavioural contract of the `cryptography` library. -/

structure OAEPParams where
  mgfHash : String
  digestHash : String
deriving DecidableEq, Repr

structure OAEPCiphertext where
  publicKey : Nat
  params : OAEPParams
  plaintext : Nat
deriving DecidableEq, Repr

/-- Model of `public_key.encrypt(data, padding.OAEP(...))`. -/
def rsaEncryptOAEP (publicKey : Nat) (params : OAEPParams) (data : Nat) : OAEPCiphertext :=
  { publicKey := publicKey, params := params, plaintext := data }

/-- Model of `private_key.decrypt(ciphertext, padding.OAEP(...))`: succeeds
exactly when the ciphertext was produced for the paired public key with the
same padding parameters. -/
def rsaDecryptOAEP (privateKey : Nat) (params : OAEPParams) (ct : OAEPCiphertext) :
    Option Nat :=
  if ct.publicKey == privateKey && ct.params == params then some ct.plaintext else none

structure FernetToken where
  key : Nat
  payload : PyStr
deriving DecidableEq, Repr

/-- Model of `Fernet(key).encrypt(data)`. -/
def fernetEncrypt (key : Nat) (data : PyStr) : FernetToken :=
  { key := key, payload := data }

/-- Model of `Fernet(key).decrypt(token)`: succeeds exactly for the key the
token was produced with. -/
def fernetDecrypt (key : Nat) (tok : FernetToken) : Option PyStr :=
  if tok.key == key then some tok.payload else none

/-! ### Model of byoda/util/secrets/secret.py -/

/-- An X.509 certificate as far as the embedded code inspects it. `subject`
and `issuer` are lists of rfc4514-rendered relative distinguished names;
`basicConstraints` is the `ca` flag of the BasicConstraints extension,
`none` when the extension is absent; `signedWith` records the key that
produced the signature. -/
structure PyCert where
  subject : List PyStr
  issuer : List PyStr
  publicKey : Nat
  serialNumber : Nat
  notValidBefore : Int
  notValidAfter : Int
  basicConstraints : Option Bool
  signedWith : Option Nat
deriving DecidableEq, Repr

/-- An X.509 certificate signing request as far as `review_csr` and
`sign_csr` inspect it. `subjectRdns` holds the rfc4514 string of each
relative distinguished name of the subject, in order. -/
structure PyCSR where
  isSignatureValid : Bool
  signatureAlgorithmName : String
  signatureHashName : String
  subjectRdns : List PyStr
  basicConstraints : Option Bool
  publicKey : Nat
deriving DecidableEq, Repr

/-- Python errors the embedded code can raise, with the message text. -/
inductive PyError where
  | valueError (msg : PyStr)
  | keyError (msg : PyStr)
  | attributeError (attr : PyStr)
  | fileNotFoundError (path : PyStr)
deriving DecidableEq, Repr

/-- The `CertChain` class: `__init__` stores the signed certificate under
`signed_cert` and the issuer chain under `cert_chain`. The field
`cert_attr` models the dynamic attribute named `cert` that `to_bytes`
reads: no code in the repository ever assigns it, so the constructor
leaves it `none`. -/
structure CertChain where
  signed_cert : PyCert
  cert_chain : List PyCert
  cert_attr : Option PyCert
deriving DecidableEq, Repr

/-- `CertChain.__init__`. -/
def CertChain.init (signed_cert : PyCert) (cert_chain : List PyCert) : CertChain :=
  { signed_cert := signed_cert, cert_chain := cert_chain, cert_attr := none }

/-- The rendering of an x509.Name in an f-string (rfc4514, comma-joined). -/
def renderName (rdns : List PyStr) : PyStr :=
  (List.intersperse [','] rdns).flatten

/-- The provenance comment block written before each PEM block. -/
def certInfoBlock (c : PyCert) : PyStr :=
  "# Issuer ".data ++ renderName c.issuer
    ++ "\n# Subject ".data ++ renderName c.subject
    ++ "\n# Valid from ".data ++ intStr c.notValidBefore
    ++ " to ".data ++ intStr c.notValidAfter ++ "\n".data

/-- Model of `cert.public_bytes(serialization.Encoding.PEM)`. -/
def certPublicBytesPEM (c : PyCert) : PyStr :=
  "-----BEGIN CERTIFICATE-----\n".data ++ natStr c.serialNumber
    ++ "\n-----END CERTIFICATE-----\n".data

/-- One loop iteration of the chain serializers: comment block, PEM block,
newline. -/
def certEntryBytes (c : PyCert) : PyStr :=
  certInfoBlock c ++ certPublicBytesPEM c ++ "\n".data

/-- The bytes written for a list of certificates. -/
def certsBytes (certs : List PyCert) : PyStr :=
  (certs.map certEntryBytes).flatten

/-- `CertChain.to_bytes`: iterates over `self.cert_chain + [self.cert]`,
but `__init__` never stores an attribute named `cert`, so the read of
`self.cert` raises AttributeError. -/
def CertChain.to_bytes (cc : CertChain) : Except PyError PyStr :=
  match cc.cert_attr with
  | none => .error (.attributeError "cert".data)
  | some c => .ok (certsBytes (cc.cert_chain ++ [c]))

/-- The `Secret` class state. The `network` attribute is set by the
network-specific subclasses (outside src/); `review_csr` reads it as the
network domain of the reviewing CA. -/
structure Secret where
  private_key : Option Nat := none
  private_key_file : PyStr := []
  cert : Option PyCert := none
  cert_file : PyStr := []
  common_name : PyStr := []
  is_root_cert : Bool := false
  ca : Bool := false
  cert_chain : List PyCert := []
  shared_key : Option Nat := none
  protected_shared_key : Option OAEPCiphertext := none
  network : PyStr := []
deriving DecidableEq, Repr

def VALID_SIGNATURE_ALGORITHMS : List String := ["sha256WithRSAEncryption"]

def VALID_SIGNATURE_HASHES : List String := ["sha256"]

def IGNORED_X509_NAMES : List PyStr := ["C".data, "ST".data, "L".data, "O".data]

/-- The subject-parsing loop of `Secret.review_csr`: each rfc4514 name is
split on `=` and unpacked into key and value (a part count other than two
raises ValueError); empty key or value is rejected; ignorable names are
skipped; `CN` updates the accumulated common name; any other key is
rejected. -/
def reviewNames : List PyStr → Option PyStr → Except PyError (Option PyStr)
  | [], acc => .ok acc
  | name :: rest, acc =>
    match pySplit '=' name with
    | [key, value] =>
      if key.isEmpty || value.isEmpty then
        .error (.valueError ("Invalid commonname: ".data ++ name))
      else if IGNORED_X509_NAMES.contains key then reviewNames rest acc
      else if key = "CN".data then reviewNames rest (some value)
      else .error (.valueError ("Unknown distinguished name: ".data ++ key))
    | _ => .error (.valueError "too many values to unpack".data)

/-- `Secret.review_csr`. -/
def Secret.review_csr (s : Secret) (csr : PyCSR) : Except PyError PyStr :=
  if !s.ca then .error (.valueError "Only CAs review CSRs".data)
  else if !csr.isSignatureValid then
    .error (.valueError "CSR with invalid signature".data)
  else if !(VALID_SIGNATURE_ALGORITHMS.contains csr.signatureAlgorithmName) then
    .error (.valueError ("Invalid algorithm: " ++ csr.signatureAlgorithmName).data)
  else if !(VALID_SIGNATURE_HASHES.contains csr.signatureHashName) then
    .error (.valueError ("Invalid algorithm: " ++ csr.signatureHashName).data)
  else
    match reviewNames csr.subjectRdns none with
    | .error e => .error e
    | .ok acc =>
      match acc with
      | none => .error (.valueError "Did not find a commonname in the subject".data)
      | some commonname =>
        if commonname.isEmpty then
          .error (.valueError "Did not find a commonname in the subject".data)
        else
          let domainSuffix := '.' :: s.network
          if !(pyEndsWith commonname domainSuffix) then
            .error (.valueError ("Commonname ".data ++ commonname
              ++ " is not under domain ".data ++ s.network))
          else .ok (commonname.take (commonname.length - domainSuffix.length))

/-- `Secret.sign_csr`. The wall clock and the fresh random serial are
explicit arguments; `expire` is in days and time is modelled in seconds. -/
def Secret.sign_csr (s : Secret) (csr : PyCSR) (expire : Nat) (now : Int)
    (serial : Nat) : Except PyError CertChain :=
  if !s.ca then .error (.valueError "Only CAs sign CSRs".data)
  else
    let is_ca := match csr.basicConstraints with
      | some b => b
      | none => false
    match s.cert with
    | none => .error (.attributeError "subject".data)
    | some ownCert =>
      match s.private_key with
      | none => .error (.valueError "private key must not be None".data)
      | some key =>
        let cert : PyCert :=
          { subject := csr.subjectRdns
            issuer := ownCert.subject
            publicKey := csr.publicKey
            serialNumber := serial
            notValidBefore := now
            notValidAfter := now + (expire : Int) * 86400
            basicConstraints := some is_ca
            signedWith := some key }
        let cert_chain := s.cert_chain ++ (if s.is_root_cert then [] else [ownCert])
        .ok (CertChain.init cert cert_chain)

/-- An encrypted private-key file: PKCS8 content protected by a password. -/
structure PrivateKeyFile where
  key : Nat
  password : PyStr
deriving DecidableEq, Repr

/-- The file system visible to `Secret.load`: certificate files are already
resolved to the list of PEM CERTIFICATE blocks the regular expression in
`load` extracts, key files to their encrypted content. `none` models a
missing file (FileNotFoundError on open). -/
structure FileSystem where
  certFiles : PyStr → Option (List PyCert)
  keyFiles : PyStr → Option PrivateKeyFile

/-- `Secret.load`. Mirrors the source: an already-populated Secret raises
ValueError before anything is read; a missing certificate file re-raises
FileNotFoundError; a certificate file with no PEM block raises ValueError;
with several blocks the last is the leaf and the preceding ones the chain;
the `ca` flag is read from the BasicConstraints extension; a missing
private-key file is caught, logged and NOT re-raised, leaving
`private_key = None`. -/
def Secret.load (fs : FileSystem) (s : Secret) (with_private_key : Bool)
    (password : PyStr) : Except PyError Secret :=
  if s.cert.isSome || s.private_key.isSome then
    .error (.valueError "Secret already has certificate and/or private key".data)
  else
    match fs.certFiles s.cert_file with
    | none => .error (.fileNotFoundError s.cert_file)
    | some certs =>
      match certs with
      | [] => .error (.valueError ("No cert found in ".data ++ s.cert_file))
      | [c] =>
        let ca := match c.basicConstraints with
          | some b => b
          | none => false
        if with_private_key then
          match fs.keyFiles s.private_key_file with
          | none => .ok { s with cert := some c, ca := ca, private_key := none }
          | some kf =>
            if kf.password ≠ password then
              .error (.valueError "Bad decrypt. Incorrect password?".data)
            else .ok { s with cert := some c, ca := ca, private_key := some kf.key }
        else .ok { s with cert := some c, ca := ca, private_key := none }
      | c1 :: c2 :: cs =>
        let certList := c1 :: c2 :: cs
        let leaf := certList.getLast (by simp)
        let chain := certList.dropLast
        let ca := match leaf.basicConstraints with
          | some b => b
          | none => false
        if with_private_key then
          match fs.keyFiles s.private_key_file with
          | none => .ok { s with cert := some leaf, cert_chain := chain, ca := ca,
                                 private_key := none }
          | some kf =>
            if kf.password ≠ password then
              .error (.valueError "Bad decrypt. Incorrect password?".data)
            else .ok { s with cert := some leaf, cert_chain := chain, ca := ca,
                              private_key := some kf.key }
        else .ok { s with cert := some leaf, cert_chain := chain, ca := ca,
                          private_key := none }

/-- `Secret.certchain_as_bytes`: serializes `self.cert_chain + [self.cert]`;
with no certificate loaded the f-string read of `None.issuer` raises
AttributeError. -/
def Secret.certchain_as_bytes (s : Secret) : Except PyError PyStr :=
  match s.cert with
  | none => .error (.attributeError "issuer".data)
  | some c => .ok (certsBytes (s.cert_chain ++ [c]))

/-- `Secret.encrypt`. -/
def Secret.encrypt (s : Secret) (data : PyStr) : Except PyError FernetToken :=
  match s.shared_key with
  | none => .error (.keyError "No shared secret available to encrypt".data)
  | some key => .ok (fernetEncrypt key data)

/-- `Secret.decrypt`. -/
def Secret.decrypt (s : Secret) (ciphertext : FernetToken) : Except PyError PyStr :=
  match s.shared_key with
  | none => .error (.keyError "No shared secret available to decrypt".data)
  | some key =>
    match fernetDecrypt key ciphertext with
    | some data => .ok data
    | none => .error (.valueError "InvalidToken".data)

/-- The OAEP parameters used by `create_shared_key` and `load_shared_key`:
SHA-256 for both the mask generation function and the digest. -/
def oaepSha256 : OAEPParams := { mgfHash := "sha256", digestHash := "sha256" }

/-- `Secret.create_shared_key`: generates a fresh Fernet key (the explicit
`freshKey` argument models `Fernet.generate_key()`) and wraps it under the
target certificate public key with OAEP/SHA-256. -/
def Secret.create_shared_key (s : Secret) (target : Secret) (freshKey : Nat) :
    Except PyError Secret :=
  match target.cert with
  | none => .error (.attributeError "public_key".data)
  | some c =>
    .ok { s with shared_key := some freshKey,
                 protected_shared_key := some (rsaEncryptOAEP c.publicKey oaepSha256 freshKey) }

/-- `Secret.load_shared_key`: unwraps a protected shared key with the own
private key under the same OAEP parameters. -/
def Secret.load_shared_key (s : Secret) (protected_key : OAEPCiphertext) :
    Except PyError Secret :=
  match s.private_key with
  | none => .error (.attributeError "decrypt".data)
  | some key =>
    match rsaDecryptOAEP key oaepSha256 protected_key with
    | none => .error (.valueError "Decryption failed".data)
    | some sk =>
      .ok { s with protected_shared_key := some protected_key, shared_key := some sk }

/-! ### Model of byoda/datamodel/dataclass.py

The schema data classes form a tree: scalars, objects (with named child
fields) and arrays (optionally referencing one element class). Only the
data consulted by `authorize_access` and `normalize` is modelled. -/

/-- The data operations of byoda.datatypes.DataOperationType that access
rules can permit. -/
inductive DataOperationType where
  | create
  | read
  | update
  | append
  | delete
  | search
  | persist
deriving DecidableEq, Repr

/-- The authenticated requesting entity, as consulted by
`authorize_access`: only its service id is read. -/
structure RequestAuth where
  service_id : Int
deriving DecidableEq, Repr

/-- Modelled from the spec: byoda/datamodel/dataaccessright.py is not under
src/. Spec section 4.5 describes a rule as evaluating, for the caller, the
service, the requested operation and the recursion depth, to an
allow/no-opinion outcome; a `DataAccessRight.authorize` call is therefore
modelled as a boolean-valued function of `(auth, service_id, operation,
depth)`, `true` meaning the rule allows the operation. -/
def DataAccessRight : Type :=
  RequestAuth → Int → DataOperationType → Nat → Bool

/-- The per-node state consulted by `SchemaDataItem.authorize_access`:
`access_rights` holds the values of the entity-type-to-rules dictionary,
one inner list per caller category; the empty outer list models the empty
dictionary of a node without access controls. -/
structure SchemaItemData where
  name : PyStr := []
  service_id : Int := 0
  access_rights : List (List DataAccessRight) := []

/-- The rule loop of `SchemaDataItem.authorize_access`: iterate the rule
groups; the first rule that evaluates truthy returns True; falling off the
end returns None. -/
def evalAccessRights (groups : List (List DataAccessRight)) (auth : RequestAuth)
    (service_id : Int) (operation : DataOperationType) (depth : Nat) : Option Bool :=
  match groups with
  | [] => none
  | g :: rest =>
    if g.any (fun r => r auth service_id operation depth) then some true
    else evalAccessRights rest auth service_id operation depth

/-- `SchemaDataItem.authorize_access`: Deny (False) when the request's
service id and the caller's differ; None when the node has no access
rights; otherwise the rule loop. -/
def schemaItemAuthorize (item : SchemaItemData) (operation : DataOperationType)
    (auth : RequestAuth) (service_id : Int) (depth : Nat) : Option Bool :=
  if service_id ≠ auth.service_id then some false
  else if item.access_rights.isEmpty then none
  else evalAccessRights item.access_rights auth service_id operation depth

/-- The tree of schema data classes: `SchemaDataScalar`, `SchemaDataObject`
(fields in schema order) and `SchemaDataArray` (with its optional
referenced element class). -/
inductive SchemaDataClass where
  | scalar (item : SchemaItemData)
  | object (item : SchemaItemData) (fields : List SchemaDataClass)
  | array (item : SchemaItemData) (referenced : Option SchemaDataClass)

/-- The `SchemaDataItem` state of a node. -/
def SchemaDataClass.item : SchemaDataClass → SchemaItemData
  | .scalar item => item
  | .object item _ => item
  | .array item _ => item

mutual

/-- The `authorize_access` methods: the scalar case is the base method; the
object case first computes the node's own determination, propagates an own
False immediately, then returns False if any child field authorization is
False, else the own determination; the array case does the same with the
referenced element class when one is set. -/
def authorizeAccess : SchemaDataClass → DataOperationType → RequestAuth → Int → Nat →
    Option Bool
  | .scalar item, operation, auth, service_id, depth =>
    schemaItemAuthorize item operation auth service_id depth
  | .object item fields, operation, auth, service_id, depth =>
    let access_allowed := schemaItemAuthorize item operation auth service_id depth
    if access_allowed = some false then some false
    else if anyChildDenies fields operation auth service_id depth then some false
    else access_allowed
  | .array item referenced, operation, auth, service_id, depth =>
    let access_allowed := schemaItemAuthorize item operation auth service_id depth
    if access_allowed = some false then some false
    else
      match referenced with
      | some r =>
        if authorizeAccess r operation auth service_id depth = some false then some false
        else access_allowed
      | none => access_allowed

/-- The child loop of `SchemaDataObject.authorize_access`: True as soon as
some field's authorization evaluates to False. -/
def anyChildDenies : List SchemaDataClass → DataOperationType → RequestAuth → Int →
    Nat → Bool
  | [], _, _, _, _ => false
  | f :: rest, operation, auth, service_id, depth =>
    decide (authorizeAccess f operation auth service_id depth = some false)
      || anyChildDenies rest operation auth service_id depth

end

/-- The jsonschema data types of byoda.datatypes.DataType consulted by
`SchemaDataScalar.normalize`. -/
inductive DataType where
  | string
  | integer
  | number
  | boolean
  | datetime
  | uuid
deriving DecidableEq, Repr

/-- Python values flowing through `SchemaDataScalar.normalize`. -/
inductive PyValue where
  | str (s : PyStr)
  | int (n : Int)
  | uuid (n : Nat)
  | datetime (d : PyDatetime)
  | pyNone
deriving DecidableEq, Repr

/-- Python truthiness of the modelled values. -/
def pyTruthy : PyValue → Bool
  | .str s => !s.isEmpty
  | .int n => n ≠ 0
  | .uuid _ => true
  | .datetime _ => true
  | .pyNone => false

/-- `isinstance(value, UUID)`. -/
def PyValue.isUuidInstance : PyValue → Bool
  | .uuid _ => true
  | _ => false

/-- `isinstance(value, datetime)`. -/
def PyValue.isDatetimeInstance : PyValue → Bool
  | .datetime _ => true
  | _ => false

/-- `SchemaDataScalar.normalize`: a truthy non-UUID value of a UUID-typed
field goes through the `uuid.UUID` constructor; a truthy non-datetime value
of a datetime-typed field goes through `fromisoformat` when it is a string
and `fromtimestamp(value, tz=utc)` otherwise; every other value is
returned unchanged. Errors raised by the constructors propagate. -/
def scalarNormalize (ty : DataType) (value : PyValue) : Except PyError PyValue :=
  if ty == DataType.uuid && pyTruthy value && !value.isUuidInstance then
    match value with
    | .str s =>
      match pythonUUID s with
      | some n => .ok (.uuid n)
      | none => .error (.valueError "badly formed hexadecimal UUID string".data)
    | _ => .error (.valueError "one of the hex, bytes, bytes_le, fields, or int arguments must be given".data)
  else if ty == DataType.datetime && pyTruthy value && !value.isDatetimeInstance then
    match value with
    | .str s =>
      match fromisoformat s with
      | some d => .ok (.datetime d)
      | none => .error (.valueError "Invalid isoformat string".data)
    | .int n => .ok (.datetime (fromtimestamp n))
    | _ => .error (.valueError "an integer is required".data)
  else .ok value

/-! ### Model of byoda/requestauth/jwt.py -/

/-- Modelled from the spec: byoda/datatypes.py (class IdType) is not under
src/, only its users are. The spec (section 4.4) gives the scope grammar
`urn:{scopeId}.{scopeType}[{serviceId}].{networkName}` where a hyphenated
scope-type segment carries an embedded service id; in-src usage fixes the
values: member.py builds a DNS subdomain by rendering `IdType.MEMBER.value`
followed immediately by the service id (so the member value ends in a
hyphen), `JWT.parse_scope` reconstructs hyphenated values by re-appending
a hyphen to the part before the hyphen, and bootstrap.py uses
`IdType.ACCOUNT.value` directly as the account subdomain. The four members
used by the embedded code paths are modelled. -/
inductive IdType where
  | account
  | member
  | service
  | network
deriving DecidableEq, Repr

/-- The `value` of each IdType member (see the modelling note above). -/
def IdType.value : IdType → PyStr
  | .account => "accounts".data
  | .member => "members-".data
  | .service => "service-".data
  | .network => "network".data

/-- The `IdType(string)` enum lookup. -/
def IdType.fromValue (v : PyStr) : Option IdType :=
  if v = "accounts".data then some .account
  else if v = "members-".data then some .member
  else if v = "service-".data then some .service
  else if v = "network".data then some .network
  else none

def JWT_EXPIRATION_DAYS : Int := 365

def JWT_ALGO_PREFFERED : String := "RS256"

def JWT_ALGO_ACCEPTED : List String := ["RS256"]

/-- The claims dictionary built by `JWT.encode`. -/
structure JwtClaims where
  exp : Int
  iss : PyStr
  aud : List PyStr
  scope : PyStr
  service_id : Option Int
deriving DecidableEq, Repr

/-- An encoded JWT: the claims, the key that signed it and the algorithm
header. The signature itself is modelled by the signing-key identifier. -/
structure EncodedJWT where
  claims : JwtClaims
  signingKey : Nat
  algorithm : String
deriving DecidableEq, Repr

/-- Model of `py_jwt.encode(data, private_key, algorithm)`. -/
def pyJwtEncode (claims : JwtClaims) (privateKey : Nat) (algorithm : String) :
    EncodedJWT :=
  { claims := claims, signingKey := privateKey, algorithm := algorithm }

/-- Model of `py_jwt.decode(token, public_key, leeway=10, audience,
algorithms)`: the algorithm header must be in the accepted list, the
signature must have been produced by the private key paired with
`publicKey`, the expected audience must occur in the `aud` claim and the
token must not be expired beyond the 10-second leeway. -/
def pyJwtDecode (tok : EncodedJWT) (publicKey : Nat) (audience : PyStr)
    (now : Int) : Except PyError JwtClaims :=
  if !(JWT_ALGO_ACCEPTED.contains tok.algorithm) then
    .error (.valueError "The specified alg value is not allowed".data)
  else if tok.signingKey ≠ publicKey then
    .error (.valueError "Signature verification failed".data)
  else if !(tok.claims.aud.contains audience) then
    .error (.valueError "Invalid audience".data)
  else if tok.claims.exp < now - 10 then
    .error (.valueError "Signature has expired".data)
  else .ok tok.claims

/-- The id of the target the JWT is scoped to: a UUID or a service number. -/
inductive ScopeId where
  | uuid (n : Nat)
  | int (n : Int)
deriving DecidableEq, Repr

/-- The f-string rendering of a ScopeId. -/
def ScopeId.render : ScopeId → PyStr
  | .uuid n => uuidCanonical n
  | .int n => intStr n

/-- The dynamic type of `JWT.issuer_id`: `create` stores the string
`{type}_id-{uuid}` while `decode` stores the parsed `uuid.UUID` value. -/
inductive IssuerIdValue where
  | str (s : PyStr)
  | uuid (n : Nat)
deriving DecidableEq, Repr

/-- The `JWT` instance state. -/
structure JWTState where
  expiration : Option Int := none
  issuer : Option PyStr := none
  issuer_id : Option IssuerIdValue := none
  issuer_type : Option IdType := none
  audience : List PyStr := []
  scope : PyStr := []
  scope_type : Option IdType := none
  scope_id : Option ScopeId := none
  secret : Option Secret := none
  service_id : Option Int := none
  verified : Option Bool := none
  network_name : PyStr := []
deriving DecidableEq, Repr

/-- `JWT.__init__`. -/
def JWT.init (network_name : PyStr) : JWTState :=
  { audience := ["urn: network-".data ++ network_name],
    network_name := network_name }

/-- `JWT.generate_scope`: the urn prefix is the literal `urn: ` with a
space; the service id is appended directly after the scope-type value,
and only when it is truthy (`if service_id:`), so `None` and `0` are both
omitted. -/
def JWT.generate_scope (scope_id : ScopeId) (scope_type : IdType)
    (service_id : Option Int) (network_name : PyStr) : PyStr :=
  let scope := "urn: ".data ++ scope_id.render ++ '.' :: scope_type.value
  let scope2 := scope ++ (match service_id with
    | some v => if v = 0 then [] else intStr v
    | none => [])
  scope2 ++ '.' :: network_name

/-- `JWT.create`: the wall clock is an explicit argument and the
expiration is `now` plus the expiration days in seconds. The trailing
`jwt.encode()` call only fills the cached `encoded` attribute and is
modelled by calling `JWT.encode` separately. -/
def JWT.create (identifier : Nat) (id_type : IdType) (secret : Secret)
    (network_name : PyStr) (service_id : Option Int) (scope_type : IdType)
    (scope_id : ScopeId) (now : Int) (expiration_days : Int) :
    Except PyError JWTState :=
  let jwt := JWT.init network_name
  let scope := JWT.generate_scope scope_id scope_type service_id network_name
  match id_type with
  | .account =>
    .ok { jwt with
      scope := scope,
      issuer_id := some (.str ("account_id-".data ++ uuidCanonical identifier)),
      issuer_type := some id_type,
      service_id := service_id,
      scope_type := some scope_type,
      scope_id := some scope_id,
      secret := some secret,
      expiration := some (now + expiration_days * 86400) }
  | .member =>
    .ok { jwt with
      scope := scope,
      issuer_id := some (.str ("member_id-".data ++ uuidCanonical identifier)),
      issuer_type := some id_type,
      service_id := service_id,
      scope_type := some scope_type,
      scope_id := some scope_id,
      secret := some secret,
      expiration := some (now + expiration_days * 86400) }
  | _ => .error (.valueError "Invalid id_type".data)

/-- The f-string rendering of `self.issuer_id` in `JWT.encode`. -/
def JWT.renderIssuerId : Option IssuerIdValue → PyStr
  | some (.str s) => s
  | some (.uuid n) => uuidCanonical n
  | none => "None".data

/-- The claims dictionary assembled by `JWT.encode`: the `iss` claim is the
literal `urn: ` (with a space) followed by the issuer id; `service_id` is
included exactly when it is not None. -/
def JWT.buildClaims (j : JWTState) : JwtClaims :=
  { exp := j.expiration.getD 0,
    iss := "urn: ".data ++ JWT.renderIssuerId j.issuer_id,
    aud := j.audience,
    scope := j.scope,
    service_id := j.service_id }

/-- `JWT.encode`: signs the claims with the private key of the held secret
using RS256. -/
def JWT.encode (j : JWTState) : Except PyError EncodedJWT :=
  match j.secret with
  | none => .error (.attributeError "private_key".data)
  | some s =>
    match s.private_key with
    | none => .error (.valueError "Expecting a PEM-formatted key".data)
    | some key => .ok (pyJwtEncode (JWT.buildClaims j) key JWT_ALGO_PREFFERED)

/-- `JWT.parse_scope`: strips a `urn:` prefix (and surrounding whitespace),
unpacks `hostname.subdomain.domain` with maxsplit 2, requires the domain to
equal the network name; a hyphenated subdomain is split into the id-type
value (looked up with a hyphen re-appended) and an embedded service id that
must equal the already-parsed `service_id` claim; the hostname becomes an
int scope id for the service type and a UUID otherwise. -/
def JWT.parse_scope (j : JWTState) (network_name : PyStr) :
    Except PyError JWTState :=
  let sc := if pyStartsWith j.scope "urn:".data then pyStrip (j.scope.drop 4)
            else j.scope
  match pySplit3 '.' sc with
  | none => .error (.valueError "not enough values to unpack".data)
  | some (hostname, subdomain, domain) =>
    if domain ≠ network_name then
      .error (.valueError ("Network ".data ++ domain ++ " does not equal ".data
        ++ network_name))
    else
      let finishWith : IdType → Except PyError JWTState := fun st =>
        if st == IdType.service then
          match pyInt hostname with
          | some v =>
            .ok { j with scope := sc, scope_type := some st,
                         scope_id := some (.int v) }
          | none => .error (.valueError "invalid literal for int".data)
        else
          match pythonUUID hostname with
          | some u =>
            .ok { j with scope := sc, scope_type := some st,
                         scope_id := some (.uuid u) }
          | none =>
            .error (.valueError "badly formed hexadecimal UUID string".data)
      if subdomain.contains '-' then
        match pySplit '-' subdomain with
        | [id_type_value, service_id_str] =>
          match pyInt service_id_str with
          | none => .error (.valueError "invalid literal for int".data)
          | some sid =>
            if some sid ≠ j.service_id then
              .error (.valueError ("Service id ".data ++ service_id_str
                ++ " does not equal the service id of the JWT".data))
            else
              match IdType.fromValue (id_type_value ++ ['-']) with
              | some st => finishWith st
              | none => .error (.valueError "is not a valid IdType".data)
        | _ => .error (.valueError "values to unpack".data)
      else
        match IdType.fromValue subdomain with
        | some st => finishWith st
        | none => .error (.valueError "is not a valid IdType".data)

/-- `JWT.decode` on the trusted-signer path (a verification secret is
supplied, so the remote-fetch branch is not taken). The bearer-prefix
stripping acts on the header text and is modelled by passing the token
value; `jwt = JWT(data[aud])` is called with the audience list, but the
audience it initializes is overwritten below and its network-name argument
is never read again, so the constructor call is not modelled further. -/
def JWT.decode (tok : EncodedJWT) (secret : Secret) (network_name : PyStr)
    (now : Int) : Except PyError JWTState :=
  let audience := "urn: network-".data ++ network_name
  match secret.cert with
  | none => .error (.attributeError "public_key".data)
  | some c =>
    match pyJwtDecode tok c.publicKey audience now with
    | .error e => .error e
    | .ok data =>
      if data.iss.isEmpty then
        .error (.valueError "No issuer specified in the JWT".data)
      else if !(pyStartsWith data.iss "urn:".data) then
        .error (.valueError "JWT issuer does not start with urn:".data)
      else
        let issuer := pyStrip (data.iss.drop 4)
        let parsedIssuer : Except PyError (IdType × Nat) :=
          if pyStartsWith issuer "member_id-".data then
            match pythonUUID (issuer.drop "member_id-".data.length) with
            | some n => .ok (IdType.member, n)
            | none =>
              .error (.valueError "badly formed hexadecimal UUID string".data)
          else if pyStartsWith issuer "account_id-".data then
            match pythonUUID (issuer.drop "account_id-".data.length) with
            | some n => .ok (IdType.account, n)
            | none =>
              .error (.valueError "badly formed hexadecimal UUID string".data)
          else .error (.valueError ("Invalid issuer in JWT: ".data ++ issuer))
        match parsedIssuer with
        | .error e => .error e
        | .ok (issuerType, issuerId) =>
          match data.aud with
          | [a0] =>
            if !(pyEndsWith a0 network_name) then
              .error (.valueError "Invalid audience in JWT".data)
            else
              let jwt0 : JWTState :=
                { expiration := some data.exp,
                  issuer := some issuer,
                  issuer_id := some (.uuid issuerId),
                  issuer_type := some issuerType,
                  audience := data.aud,
                  scope := data.scope,
                  service_id := data.service_id,
                  secret := some secret,
                  verified := some true }
              JWT.parse_scope jwt0 network_name
          | _ => .error (.valueError "Invalid audience targets in JWT".data)

/-! ### Claim C1: review_csr policy -/

/-- An rfc4514 name string that the review loop skips: it splits on `=`
into a non-empty ignorable key (C, ST, L or O) and a non-empty value. -/
def IgnorableRdn (x : PyStr) : Bool :=
  match pySplit '=' x with
  | [key, value] => !key.isEmpty && !value.isEmpty && IGNORED_X509_NAMES.contains key
  | _ => false

theorem reviewNames_skip_ignorable {l : List PyStr} (rest : List PyStr)
    (acc : Option PyStr) (h : ∀ x ∈ l, IgnorableRdn x = true) :
    reviewNames (l ++ rest) acc = reviewNames rest acc := by
  induction l with
  | nil => rfl
  | cons x xs ih =>
    have hx : IgnorableRdn x = true := h x (by simp)
    unfold IgnorableRdn at hx
    rcases hsplit : pySplit '=' x with _ | ⟨key, tail⟩
    · rw [hsplit] at hx; simp at hx
    · rcases tail with _ | ⟨value, tail2⟩
      · rw [hsplit] at hx; simp at hx
      · rcases tail2 with _ | ⟨z, zs⟩
        · rw [hsplit] at hx
          simp only [Bool.and_eq_true] at hx
          obtain ⟨⟨hk, hv⟩, hig⟩ := hx
          simp only [List.cons_append, reviewNames, hsplit, hk, hv, hig]
          simp only [Bool.not_eq_true'] at hk hv
          simp only [hk, hv, Bool.or_self, Bool.false_eq_true, if_false, if_true]
          exact ih (fun y hy => h y (by simp [hy]))
        · rw [hsplit] at hx; simp at hx

theorem reviewNames_cn_step {rest : List PyStr} {value : PyStr} (acc : Option PyStr)
    (hv : value ≠ []) (hnoeq : '=' ∉ value) :
    reviewNames (("CN=".data ++ value) :: rest) acc = reviewNames rest (some value) := by
  have hsplit : pySplit '=' ("CN=".data ++ value) = ["CN".data, value] := by
    have : "CN=".data ++ value = "CN".data ++ '=' :: value := rfl
    rw [this]
    exact pySplit_single_sep (by decide) hnoeq
  simp only [reviewNames, hsplit]
  have hvne : value.isEmpty = false := by
    cases value with
    | nil => exact absurd rfl hv
    | cons a l => rfl
  simp [hvne, IGNORED_X509_NAMES]

/-- Claim C1: for every CSR whose self-signature is valid, whose signature
algorithm is sha256WithRSAEncryption with hash sha256, whose subject
consists of one common-name attribute plus only the ignorable attributes
C/ST/L/O, and whose common name ends with `.` followed by the reviewing
CA's network domain, `review_csr` on a CA identity returns the common name
with the suffix stripped; a call on a non-CA identity, an invalid
self-signature, a non-approved algorithm or hash, an unknown subject
attribute, or a common name without the domain suffix each fail with an
error naming the defect. -/
theorem c1_review_csr_policy :
    (∀ (s : Secret) (csr : PyCSR) (pre post : List PyStr) (base : PyStr),
      s.ca = true →
      csr.isSignatureValid = true →
      csr.signatureAlgorithmName = "sha256WithRSAEncryption" →
      csr.signatureHashName = "sha256" →
      (∀ x ∈ pre, IgnorableRdn x = true) →
      (∀ x ∈ post, IgnorableRdn x = true) →
      csr.subjectRdns = pre ++ ("CN=".data ++ (base ++ '.' :: s.network)) :: post →
      '=' ∉ base → '=' ∉ s.network →
      s.review_csr csr = .ok base) ∧
    (∀ (s : Secret) (csr : PyCSR), s.ca = false →
      s.review_csr csr = .error (.valueError "Only CAs review CSRs".data)) ∧
    (∀ (s : Secret) (csr : PyCSR), s.ca = true → csr.isSignatureValid = false →
      s.review_csr csr = .error (.valueError "CSR with invalid signature".data)) ∧
    (∀ (s : Secret) (csr : PyCSR), s.ca = true → csr.isSignatureValid = true →
      csr.signatureAlgorithmName ∉ VALID_SIGNATURE_ALGORITHMS →
      s.review_csr csr =
        .error (.valueError ("Invalid algorithm: " ++ csr.signatureAlgorithmName).data)) ∧
    (∀ (s : Secret) (csr : PyCSR), s.ca = true → csr.isSignatureValid = true →
      csr.signatureAlgorithmName ∈ VALID_SIGNATURE_ALGORITHMS →
      csr.signatureHashName ∉ VALID_SIGNATURE_HASHES →
      s.review_csr csr =
        .error (.valueError ("Invalid algorithm: " ++ csr.signatureHashName).data)) ∧
    (∀ (s : Secret) (csr : PyCSR) (pre rest : List PyStr) (key value : PyStr),
      s.ca = true → csr.isSignatureValid = true →
      csr.signatureAlgorithmName ∈ VALID_SIGNATURE_ALGORITHMS →
      csr.signatureHashName ∈ VALID_SIGNATURE_HASHES →
      (∀ x ∈ pre, IgnorableRdn x = true) →
      csr.subjectRdns = pre ++ ((key ++ '=' :: value) :: rest) →
      key ≠ [] → value ≠ [] → '=' ∉ key → '=' ∉ value →
      key ∉ IGNORED_X509_NAMES → key ≠ "CN".data →
      s.review_csr csr =
        .error (.valueError ("Unknown distinguished name: ".data ++ key))) ∧
    (∀ (s : Secret) (csr : PyCSR) (pre post : List PyStr) (cn : PyStr),
      s.ca = true → csr.isSignatureValid = true →
      csr.signatureAlgorithmName ∈ VALID_SIGNATURE_ALGORITHMS →
      csr.signatureHashName ∈ VALID_SIGNATURE_HASHES →
      (∀ x ∈ pre, IgnorableRdn x = true) →
      (∀ x ∈ post, IgnorableRdn x = true) →
      csr.subjectRdns = pre ++ ("CN=".data ++ cn) :: post →
      cn ≠ [] → '=' ∉ cn →
      pyEndsWith cn ('.' :: s.network) = false →
      s.review_csr csr = .error (.valueError ("Commonname ".data ++ cn
        ++ " is not under domain ".data ++ s.network))) := by
  refine ⟨?pos, ?noca, ?badsig, ?badalgo, ?badhash, ?badkey, ?badsuffix⟩
  case noca =>
    intro s csr hca
    unfold Secret.review_csr
    rw [hca]
    simp
  case badsig =>
    intro s csr hca hsig
    unfold Secret.review_csr
    rw [hca, hsig]
    simp
  case badalgo =>
    intro s csr hca hsig halgo
    have halgo2 : VALID_SIGNATURE_ALGORITHMS.contains csr.signatureAlgorithmName = false := by
      simpa using halgo
    unfold Secret.review_csr
    rw [hca, hsig, halgo2]
    simp
  case badhash =>
    intro s csr hca hsig halgo hhash
    have halgo2 : VALID_SIGNATURE_ALGORITHMS.contains csr.signatureAlgorithmName = true := by
      simpa using halgo
    have hhash2 : VALID_SIGNATURE_HASHES.contains csr.signatureHashName = false := by
      simpa using hhash
    unfold Secret.review_csr
    rw [hca, hsig, halgo2, hhash2]
    simp
  case badkey =>
    intro s csr pre rest key value hca hsig halgo hhash hpre hsubj hk hv hkeq hveq hnig hncn
    have halgo2 : VALID_SIGNATURE_ALGORITHMS.contains csr.signatureAlgorithmName = true := by
      simpa using halgo
    have hhash2 : VALID_SIGNATURE_HASHES.contains csr.signatureHashName = true := by
      simpa using hhash
    have hnames : reviewNames csr.subjectRdns none =
        .error (.valueError ("Unknown distinguished name: ".data ++ key)) := by
      rw [hsubj, reviewNames_skip_ignorable _ none hpre]
      have hsplit : pySplit '=' (key ++ '=' :: value) = [key, value] :=
        pySplit_single_sep hkeq hveq
      have hkne : key.isEmpty = false := by
        cases key with
        | nil => exact absurd rfl hk
        | cons a l => rfl
      have hvne : value.isEmpty = false := by
        cases value with
        | nil => exact absurd rfl hv
        | cons a l => rfl
      have hnig2 : IGNORED_X509_NAMES.contains key = false := by
        simpa using hnig
      simp only [reviewNames, hsplit, hkne, hvne, hnig2, Bool.or_self,
        Bool.false_eq_true, if_false]
      rw [if_neg hncn]
    unfold Secret.review_csr
    rw [hca, hsig, halgo2, hhash2, hnames]
    simp
  case badsuffix =>
    intro s csr pre post cn hca hsig halgo hhash hpre hpost hsubj hcn hcneq hsuf
    have halgo2 : VALID_SIGNATURE_ALGORITHMS.contains csr.signatureAlgorithmName = true := by
      simpa using halgo
    have hhash2 : VALID_SIGNATURE_HASHES.contains csr.signatureHashName = true := by
      simpa using hhash
    have hnames : reviewNames csr.subjectRdns none = .ok (some cn) := by
      rw [hsubj, reviewNames_skip_ignorable _ none hpre,
        reviewNames_cn_step none hcn hcneq,
        show ((post : List PyStr) = post ++ []) by simp,
        reviewNames_skip_ignorable [] (some cn) hpost]
      rfl
    have hcne : cn.isEmpty = false := by
      cases cn with
      | nil => exact absurd rfl hcn
      | cons a l => rfl
    unfold Secret.review_csr
    rw [hca, hsig, halgo2, hhash2, hnames]
    simp [hcne, hsuf]
  case pos =>
    intro s csr pre post base hca hsig halgo hhash hpre hpost hsubj hbeq hneq
    have halgo2 : VALID_SIGNATURE_ALGORITHMS.contains csr.signatureAlgorithmName = true := by
      rw [halgo]; rfl
    have hhash2 : VALID_SIGNATURE_HASHES.contains csr.signatureHashName = true := by
      rw [hhash]; rfl
    have hcneq : '=' ∉ base ++ '.' :: s.network := by
      intro hm
      rcases List.mem_append.mp hm with hm | hm
      · exact hbeq hm
      · rcases List.mem_cons.mp hm with hm | hm
        · exact absurd hm (by decide)
        · exact hneq hm
    have hcnnil : base ++ '.' :: s.network ≠ [] := by simp
    have hnames : reviewNames csr.subjectRdns none = .ok (some (base ++ '.' :: s.network)) := by
      rw [hsubj, reviewNames_skip_ignorable _ none hpre,
        reviewNames_cn_step none hcnnil hcneq,
        show ((post : List PyStr) = post ++ []) by simp,
        reviewNames_skip_ignorable [] (some (base ++ '.' :: s.network)) hpost]
      rfl
    have hcne : (base ++ '.' :: s.network).isEmpty = false := by
      cases base <;> rfl
    have hsuf : pyEndsWith (base ++ '.' :: s.network) ('.' :: s.network) = true :=
      pyEndsWith_append base ('.' :: s.network)
    have htake : (base ++ '.' :: s.network).take
        ((base ++ '.' :: s.network).length - ('.' :: s.network).length) = base := by
      have hlen : (base ++ '.' :: s.network).length - ('.' :: s.network).length
          = base.length := by
        simp
      rw [hlen]
      simp
    unfold Secret.review_csr
    rw [hca, hsig, halgo2, hhash2, hnames]
    simp only [hcne, hsuf, Bool.not_true, Bool.not_false, Bool.false_eq_true,
      if_false, if_true]
    exact congrArg Except.ok htake

/-- Witness for C1: a CA for network byoda.net accepts a CSR with subject
C/ST/L/O boilerplate plus CN=service-77.byoda.net and returns service-77. -/
theorem c1_review_csr_policy_witness :
    ({ ca := true, network := "byoda.net".data : Secret }).review_csr
      { isSignatureValid := true,
        signatureAlgorithmName := "sha256WithRSAEncryption",
        signatureHashName := "sha256",
        subjectRdns := ["C=SW".data, "ST=SW".data, "L=local".data,
          "O=memyselfandi".data, "CN=service-77.byoda.net".data],
        basicConstraints := none,
        publicKey := 1 } = .ok "service-77".data :=
  c1_review_csr_policy.1
    { ca := true, network := "byoda.net".data }
    { isSignatureValid := true,
      signatureAlgorithmName := "sha256WithRSAEncryption",
      signatureHashName := "sha256",
      subjectRdns := ["C=SW".data, "ST=SW".data, "L=local".data,
        "O=memyselfandi".data, "CN=service-77.byoda.net".data],
      basicConstraints := none,
      publicKey := 1 }
    ["C=SW".data, "ST=SW".data, "L=local".data, "O=memyselfandi".data] []
    "service-77".data
    rfl rfl rfl rfl (by decide) (by decide) (by decide) (by decide) (by decide)

/-! ### Claim C2: sign_csr -/

/-- Claim C2: for every CA identity (certificate and private key present)
and every CSR, `sign_csr` issues a certificate whose CA basic-constraint
equals the flag requested in the CSR basic-constraints extension (false
when absent), valid from `now` to `now + expire` days, signed with the CA
private key; the returned chain is the CA own chain with the CA own
certificate appended exactly when the CA is not the root. -/
theorem c2_sign_csr_spec :
    ∀ (s : Secret) (csr : PyCSR) (expire : Nat) (now : Int) (serial : Nat)
      (ownCert : PyCert) (key : Nat),
      s.ca = true → s.cert = some ownCert → s.private_key = some key →
      ∃ cc : CertChain,
        s.sign_csr csr expire now serial = .ok cc ∧
        cc.signed_cert.basicConstraints = some (csr.basicConstraints.getD false) ∧
        cc.signed_cert.notValidBefore = now ∧
        cc.signed_cert.notValidAfter = now + (expire : Int) * 86400 ∧
        cc.signed_cert.signedWith = some key ∧
        cc.signed_cert.publicKey = csr.publicKey ∧
        cc.cert_chain = s.cert_chain ++ (if s.is_root_cert then [] else [ownCert]) := by
  intro s csr expire now serial ownCert key hca hcert hkey
  unfold Secret.sign_csr
  rw [hca, hcert, hkey]
  simp only [Bool.not_true, Bool.false_eq_true, if_false]
  refine ⟨_, rfl, ?_, rfl, rfl, rfl, rfl, rfl⟩
  cases csr.basicConstraints <;> rfl

/-- A root certificate used by concrete witnesses. -/
def c2RootCert : PyCert :=
  { subject := ["CN=root".data], issuer := ["CN=root".data], publicKey := 8,
    serialNumber := 0, notValidBefore := 0, notValidAfter := 100,
    basicConstraints := some true, signedWith := some 8 }

/-- An intermediate CA certificate used by concrete witnesses. -/
def c2CaCert : PyCert :=
  { subject := ["CN=ca.byoda.net".data], issuer := ["CN=root".data],
    publicKey := 9, serialNumber := 1, notValidBefore := 0, notValidAfter := 100,
    basicConstraints := some true, signedWith := some 8 }

/-- An intermediate CA Secret used by concrete witnesses. -/
def c2CaSecret : Secret :=
  { ca := true, is_root_cert := false, cert := some c2CaCert,
    private_key := some 9, cert_chain := [c2RootCert],
    network := "byoda.net".data }

/-- A CSR used by concrete witnesses. -/
def c2Csr : PyCSR :=
  { isSignatureValid := true,
    signatureAlgorithmName := "sha256WithRSAEncryption",
    signatureHashName := "sha256",
    subjectRdns := ["CN=member.byoda.net".data],
    basicConstraints := some true, publicKey := 4 }

/-- Witness for C2: a concrete intermediate CA signing a CA-flagged CSR. -/
theorem c2_sign_csr_spec_witness :
    ∃ cc : CertChain,
      Secret.sign_csr c2CaSecret c2Csr 365 1000 55 = .ok cc ∧
      cc.signed_cert.basicConstraints = some true ∧
      cc.signed_cert.notValidBefore = 1000 ∧
      cc.signed_cert.notValidAfter = 1000 + (365 : Int) * 86400 ∧
      cc.signed_cert.signedWith = some 9 ∧
      cc.signed_cert.publicKey = 4 ∧
      cc.cert_chain = [c2RootCert, c2CaCert] := by
  obtain ⟨cc, h1, h2, h3, h4, h5, h6, h7⟩ :=
    c2_sign_csr_spec c2CaSecret c2Csr 365 1000 55 c2CaCert 9 rfl rfl rfl
  exact ⟨cc, h1, h2, h3, h4, h5, h6, by rw [h7]; rfl⟩

/-! ### Claims C3 and C4: the authorization engine -/

theorem anyChildDenies_iff (fields : List SchemaDataClass)
    (operation : DataOperationType) (auth : RequestAuth) (service_id : Int)
    (depth : Nat) :
    anyChildDenies fields operation auth service_id depth = true ↔
      ∃ f ∈ fields, authorizeAccess f operation auth service_id depth = some false := by
  induction fields with
  | nil => simp [anyChildDenies]
  | cons f rest ih =>
    simp only [anyChildDenies, Bool.or_eq_true, decide_eq_true_eq, ih]
    constructor
    · rintro (h | ⟨g, hg, hgd⟩)
      · exact ⟨f, by simp, h⟩
      · exact ⟨g, by simp [hg], hgd⟩
    · rintro ⟨g, hg, hgd⟩
      rcases List.mem_cons.mp hg with rfl | hg2
      · exact Or.inl hgd
      · exact Or.inr ⟨g, hg2, hgd⟩

theorem evalAccessRights_eq (groups : List (List DataAccessRight))
    (auth : RequestAuth) (service_id : Int) (operation : DataOperationType)
    (depth : Nat) :
    evalAccessRights groups auth service_id operation depth =
      (if groups.any (fun g => g.any (fun r => r auth service_id operation depth))
       then some true else none) := by
  induction groups with
  | nil => rfl
  | cons g rest ih =>
    by_cases hg : g.any (fun r => r auth service_id operation depth) = true
    · simp [evalAccessRights, hg]
    · simp only [Bool.not_eq_true] at hg
      simp [evalAccessRights, hg, ih]

/-- Claim C3: for every object or array node, if the node's own rule
evaluation yields Deny the recursive authorization is Deny (for any
children, which are then not consulted); if any child's (respectively the
referenced class's) recursive authorization yields Deny, the overall
result is Deny regardless of the node's own Allow/Indeterminate; otherwise
the overall result equals the node's own determination. -/
theorem c3_authorize_child_veto :
    ∀ (item : SchemaItemData) (fields : List SchemaDataClass)
      (referenced : Option SchemaDataClass) (operation : DataOperationType)
      (auth : RequestAuth) (service_id : Int) (depth : Nat),
      (schemaItemAuthorize item operation auth service_id depth = some false →
        authorizeAccess (.object item fields) operation auth service_id depth
            = some false ∧
        authorizeAccess (.array item referenced) operation auth service_id depth
            = some false) ∧
      ((∃ f ∈ fields, authorizeAccess f operation auth service_id depth = some false) →
        authorizeAccess (.object item fields) operation auth service_id depth
          = some false) ∧
      (∀ r, referenced = some r →
        authorizeAccess r operation auth service_id depth = some false →
        authorizeAccess (.array item referenced) operation auth service_id depth
          = some false) ∧
      (schemaItemAuthorize item operation auth service_id depth ≠ some false →
        (∀ f ∈ fields, authorizeAccess f operation auth service_id depth ≠ some false) →
        authorizeAccess (.object item fields) operation auth service_id depth
          = schemaItemAuthorize item operation auth service_id depth) ∧
      (schemaItemAuthorize item operation auth service_id depth ≠ some false →
        (∀ r, referenced = some r →
          authorizeAccess r operation auth service_id depth ≠ some false) →
        authorizeAccess (.array item referenced) operation auth service_id depth
          = schemaItemAuthorize item operation auth service_id depth) := by
  intro item fields referenced operation auth service_id depth
  refine ⟨?ownDeny, ?childVeto, ?refVeto, ?objOwn, ?arrOwn⟩
  case ownDeny =>
    intro hown
    constructor
    · unfold authorizeAccess
      simp [hown]
    · unfold authorizeAccess
      simp [hown]
  case childVeto =>
    intro hex
    have hchild : anyChildDenies fields operation auth service_id depth = true :=
      (anyChildDenies_iff fields operation auth service_id depth).mpr hex
    by_cases hown : schemaItemAuthorize item operation auth service_id depth = some false
    · unfold authorizeAccess
      simp [hown]
    · unfold authorizeAccess
      simp [hown, hchild]
  case refVeto =>
    intro r hr hrd
    by_cases hown : schemaItemAuthorize item operation auth service_id depth = some false
    · unfold authorizeAccess
      simp [hown]
    · unfold authorizeAccess
      simp [hown, hr, hrd]
  case objOwn =>
    intro hown hchildren
    have hchild : anyChildDenies fields operation auth service_id depth = false := by
      rw [← Bool.not_eq_true]
      intro hc
      obtain ⟨f, hf, hfd⟩ := (anyChildDenies_iff fields operation auth service_id depth).mp hc
      exact hchildren f hf hfd
    unfold authorizeAccess
    simp [hown, hchild]
  case arrOwn =>
    intro hown href
    cases href2 : referenced with
    | none =>
      unfold authorizeAccess
      simp [hown]
    | some r =>
      have hr := href r href2
      unfold authorizeAccess
      simp [hown, hr]

/-- Witness for C3: a two-level tree whose caller comes from another
service: every child is denied and the parent, though it carries an
always-allow rule, is denied; for a matching caller the parent result is
its own Allow. -/
theorem c3_authorize_child_veto_witness :
    authorizeAccess
        (.object { service_id := 1, access_rights := [[fun _ _ _ _ => true]] }
          [.scalar { service_id := 1, access_rights := [] }])
        .read { service_id := 2 } 1 0 = some false ∧
    authorizeAccess
        (.object { service_id := 1, access_rights := [[fun _ _ _ _ => true]] }
          [.scalar { service_id := 1, access_rights := [] }])
        .read { service_id := 1 } 1 0 = some true := by
  constructor
  · exact ((c3_authorize_child_veto
      { service_id := 1, access_rights := [[fun _ _ _ _ => true]] }
      [.scalar { service_id := 1, access_rights := [] }] none .read
      { service_id := 2 } 1 0).2.1
      ⟨.scalar { service_id := 1, access_rights := [] }, by simp, rfl⟩)
  · exact ((c3_authorize_child_veto
      { service_id := 1, access_rights := [[fun _ _ _ _ => true]] }
      [.scalar { service_id := 1, access_rights := [] }] none .read
      { service_id := 1 } 1 0).2.2.2.1
      (by intro h; simp [schemaItemAuthorize, evalAccessRights] at h)
      (by
        intro f hf
        have : f = SchemaDataClass.scalar { service_id := 1, access_rights := [] } := by
          simpa using hf
        rw [this]
        intro h
        simp [authorizeAccess, schemaItemAuthorize] at h))

/-- Claim C4: authorization of any node invoked with the node's own
service id returns Deny as soon as the caller's service id differs,
independent of configured rules and children; with matching service ids
the node's own evaluation is Indeterminate when it has no access rules,
Allow when some rule across the categories evaluates to Allow, and
Indeterminate (never Deny) when the rules are exhausted. -/
theorem c4_cross_service_isolation :
    ∀ (dc : SchemaDataClass) (item : SchemaItemData)
      (operation : DataOperationType) (auth : RequestAuth) (depth : Nat),
      (auth.service_id ≠ dc.item.service_id →
        authorizeAccess dc operation auth dc.item.service_id depth = some false) ∧
      (auth.service_id = item.service_id →
        (item.access_rights = [] →
          schemaItemAuthorize item operation auth item.service_id depth = none) ∧
        schemaItemAuthorize item operation auth item.service_id depth =
          (if item.access_rights.any
              (fun g => g.any (fun r => r auth item.service_id operation depth))
           then some true else none)) := by
  intro dc item operation auth depth
  constructor
  · intro hne
    have hown : schemaItemAuthorize dc.item operation auth dc.item.service_id depth
        = some false := by
      unfold schemaItemAuthorize
      rw [if_pos (fun he => hne he.symm)]
    cases dc with
    | scalar item2 => exact hown
    | object item2 fields =>
      simp only [SchemaDataClass.item] at hown
      unfold authorizeAccess
      simp [SchemaDataClass.item, hown]
    | array item2 referenced =>
      simp only [SchemaDataClass.item] at hown
      unfold authorizeAccess
      simp [SchemaDataClass.item, hown]
  · intro heq
    have hmatch : ¬ (item.service_id ≠ auth.service_id) := by omega
    constructor
    · intro hempty
      unfold schemaItemAuthorize
      rw [if_neg hmatch, hempty]
      rfl
    · unfold schemaItemAuthorize
      rw [if_neg hmatch]
      cases hrights : item.access_rights with
      | nil => simp
      | cons g rest =>
        rw [← hrights]
        have hne : item.access_rights.isEmpty = false := by
          rw [hrights]; rfl
        rw [hne]
        simp only [Bool.false_eq_true, if_false]
        exact evalAccessRights_eq item.access_rights auth item.service_id operation depth

/-- Witness for C4: a cross-service caller is denied on a node carrying an
always-allow rule; a matching caller gets Allow from the rule, and
Indeterminate both on a node without rules and on a node whose only rule
does not allow. -/
theorem c4_cross_service_isolation_witness :
    authorizeAccess (.scalar { service_id := 5, access_rights := [[fun _ _ _ _ => true]] })
        .read { service_id := 6 } 5 0 = some false ∧
    schemaItemAuthorize { service_id := 5, access_rights := [] }
        .read { service_id := 5 } 5 0 = none ∧
    schemaItemAuthorize { service_id := 5, access_rights := [[fun _ _ _ _ => true]] }
        .read { service_id := 5 } 5 0 = some true ∧
    schemaItemAuthorize { service_id := 5, access_rights := [[fun _ _ _ _ => false]] }
        .read { service_id := 5 } 5 0 = none := by
  refine ⟨?_, ?_, ?_, ?_⟩
  · exact (c4_cross_service_isolation
      (.scalar { service_id := 5, access_rights := [[fun _ _ _ _ => true]] })
      { service_id := 5, access_rights := [] } .read { service_id := 6 } 0).1
      (by decide)
  · exact ((c4_cross_service_isolation
      (.scalar { service_id := 5, access_rights := [] })
      { service_id := 5, access_rights := [] } .read { service_id := 5 } 0).2
      rfl).1 rfl
  · have h := ((c4_cross_service_isolation
      (.scalar { service_id := 5, access_rights := [] })
      { service_id := 5, access_rights := [[fun _ _ _ _ => true]] } .read
      { service_id := 5 } 0).2 rfl).2
    rw [h]
    rfl
  · have h := ((c4_cross_service_isolation
      (.scalar { service_id := 5, access_rights := [] })
      { service_id := 5, access_rights := [[fun _ _ _ _ => false]] } .read
      { service_id := 5 } 0).2 rfl).2
    rw [h]
    rfl

/-! ### Claim C5: token claim formats -/

/-- Counterexample for C5 as stated: at a concrete issuance (account
subject 17, scope service 77 with supplied service id 0, network
byoda.net) the iss claim is not `urn:account_id-{subjectId}`, the aud
claim is not `[urn:network-byoda.net]`, and the scope claim is not
`urn:77.service-0.byoda.net`: the code writes `urn: ` with a space in all
three places and drops the supplied service id 0 from the scope. -/
theorem c5_counterexample :
    (JWT.create 17 IdType.account { private_key := some 3 } "byoda.net".data
        (some 0) IdType.service (.int 77) 1000 365).map
      (fun j => (JWT.buildClaims j).iss) ≠
      .ok "urn:account_id-00000000-0000-0000-0000-000000000011".data ∧
    (JWT.create 17 IdType.account { private_key := some 3 } "byoda.net".data
        (some 0) IdType.service (.int 77) 1000 365).map
      (fun j => (JWT.buildClaims j).aud) ≠
      .ok ["urn:network-byoda.net".data] ∧
    (JWT.create 17 IdType.account { private_key := some 3 } "byoda.net".data
        (some 0) IdType.service (.int 77) 1000 365).map
      (fun j => (JWT.buildClaims j).scope) ≠
      .ok "urn:77.service-0.byoda.net".data := by
  refine ⟨?_, ?_, ?_⟩ <;> decide

/-- Claim C5 as amended: for every issued token the iss claim equals
`urn: {subjectType}_id-{subjectId}` with a space after the colon, the aud
claim equals the single-element array [`urn: network-{networkName}`] with
a space, and the scope claim equals
`urn: {scopeId}.{scopeTypeValue}{serviceId?}.{networkName}` where the
service-id segment is appended directly after the scope-type value and is
present exactly when the supplied service id is neither None nor 0; the
service_id claim carries the supplied value unchanged and exp is the
issuance time plus the expiration days. -/
theorem c5_token_claim_formats :
    ∀ (identifier : Nat) (id_type : IdType) (secret : Secret)
      (network_name : PyStr) (service_id : Option Int) (scope_type : IdType)
      (scope_id : ScopeId) (now : Int) (days : Int) (j : JWTState),
      JWT.create identifier id_type secret network_name service_id scope_type
          scope_id now days = .ok j →
      (JWT.buildClaims j).iss =
        "urn: ".data
          ++ (if id_type = .account then "account_id-".data else "member_id-".data)
          ++ uuidCanonical identifier ∧
      (JWT.buildClaims j).aud = ["urn: network-".data ++ network_name] ∧
      (JWT.buildClaims j).scope =
        "urn: ".data ++ scope_id.render ++ '.' :: scope_type.value
          ++ (match service_id with
              | some v => if v = 0 then [] else intStr v
              | none => [])
          ++ '.' :: network_name ∧
      (JWT.buildClaims j).service_id = service_id ∧
      (JWT.buildClaims j).exp = now + days * 86400 := by
  intro identifier id_type secret network_name service_id scope_type scope_id
    now days j hcreate
  cases id_type with
  | account =>
    rw [show JWT.create identifier IdType.account secret network_name service_id
        scope_type scope_id now days =
      .ok { JWT.init network_name with
        scope := JWT.generate_scope scope_id scope_type service_id network_name,
        issuer_id := some (.str ("account_id-".data ++ uuidCanonical identifier)),
        issuer_type := some IdType.account,
        service_id := service_id,
        scope_type := some scope_type,
        scope_id := some scope_id,
        secret := some secret,
        expiration := some (now + days * 86400) } from rfl] at hcreate
    injection hcreate with hj
    subst hj
    refine ⟨rfl, rfl, ?_, rfl, rfl⟩
    simp [JWT.buildClaims, JWT.generate_scope, JWT.init, List.append_assoc]
  | member =>
    rw [show JWT.create identifier IdType.member secret network_name service_id
        scope_type scope_id now days =
      .ok { JWT.init network_name with
        scope := JWT.generate_scope scope_id scope_type service_id network_name,
        issuer_id := some (.str ("member_id-".data ++ uuidCanonical identifier)),
        issuer_type := some IdType.member,
        service_id := service_id,
        scope_type := some scope_type,
        scope_id := some scope_id,
        secret := some secret,
        expiration := some (now + days * 86400) } from rfl] at hcreate
    injection hcreate with hj
    subst hj
    refine ⟨rfl, rfl, ?_, rfl, rfl⟩
    simp [JWT.buildClaims, JWT.generate_scope, JWT.init, List.append_assoc]
  | service => exact absurd hcreate (by simp [JWT.create])
  | network => exact absurd hcreate (by simp [JWT.create])

/-- Witness for C5: a member token for service 1234 scoped to member UUID
value 5 in network byoda.net carries the amended claim formats. -/
theorem c5_token_claim_formats_witness :
    ∃ j : JWTState,
      JWT.create 7 IdType.member { private_key := some 3 } "byoda.net".data
          (some 1234) IdType.member (.uuid 5) 1000 365 = .ok j ∧
      (JWT.buildClaims j).iss =
        "urn: member_id-00000000-0000-0000-0000-000000000007".data ∧
      (JWT.buildClaims j).aud = ["urn: network-byoda.net".data] ∧
      (JWT.buildClaims j).scope =
        "urn: 00000000-0000-0000-0000-000000000005.members-1234.byoda.net".data ∧
      (JWT.buildClaims j).service_id = some 1234 := by
  have hcreate : JWT.create 7 IdType.member { private_key := some 3 }
      "byoda.net".data (some 1234) IdType.member (.uuid 5) 1000 365 =
      .ok { JWT.init "byoda.net".data with
        scope := JWT.generate_scope (.uuid 5) IdType.member (some 1234) "byoda.net".data,
        issuer_id := some (.str ("member_id-".data ++ uuidCanonical 7)),
        issuer_type := some IdType.member,
        service_id := some 1234,
        scope_type := some IdType.member,
        scope_id := some (.uuid 5),
        secret := some { private_key := some 3 },
        expiration := some (1000 + 365 * 86400) } := rfl
  obtain ⟨h1, h2, h3, h4, h5⟩ :=
    c5_token_claim_formats 7 IdType.member { private_key := some 3 }
      "byoda.net".data (some 1234) IdType.member (.uuid 5) 1000 365 _ hcreate
  refine ⟨_, hcreate, ?_, ?_, ?_, h4⟩
  · rw [h1]; decide
  · rw [h2]; decide
  · rw [h3]; decide

/-! ### Claim C6: token round trip -/

/-- A concrete member identity with a matching key pair (certificate public
key 42 paired with private key 42). -/
def c6MemberCert : PyCert :=
  { subject := ["CN=member".data], issuer := ["CN=ca".data], publicKey := 42,
    serialNumber := 2, notValidBefore := 0, notValidAfter := 99,
    basicConstraints := some false, signedWith := some 9 }

/-- The Secret of the concrete member identity. -/
def c6MemberSecret : Secret :=
  { cert := some c6MemberCert, private_key := some 42 }

/-- Counterexample for C6 as stated: issuing with the valid inputs
(subject 7/member, service id 0, member scope 99, network byoda.net) and
decoding the encoded token with the signing identity as trusted signer
does not yield a verified token - decode fails, because the scope was
rendered without the falsy service id 0 (`members-.byoda.net`) and
parse_scope runs int() on the empty string after the hyphen. -/
theorem c6_counterexample :
    (JWT.create 7 IdType.member c6MemberSecret "byoda.net".data (some 0)
        IdType.member (.uuid 99) 1000 365).bind
      (fun j => (JWT.encode j).bind
        (fun tok => JWT.decode tok c6MemberSecret "byoda.net".data 1000)) =
    .error (.valueError "invalid literal for int".data) := by
  decide

theorem mem_contains_true {c : Char} {l : PyStr} (h : c ∈ l) :
    l.contains c = true :=
  List.elem_eq_true_of_mem h

theorem natStr_no_dot_no_hyphen_no_space {k : Nat} {c : Char} (hc : c ∈ natStr k) :
    c ≠ '.' ∧ c ≠ '-' ∧ isPySpace c = false := by
  have hd := mem_natDigitsAux_isDigit hc
  have hne := digit_ne_of_toNat hd
  exact ⟨hne.1, hne.2.1, digit_not_space hd⟩

theorem intStr_of_pos {k : Int} (hk : 0 < k) : intStr k = natStr k.natAbs := by
  unfold intStr
  rw [if_neg (by omega)]

theorem pyInt_natAbs_of_pos {k : Int} (hk : 0 < k) :
    pyInt (natStr k.natAbs) = some k := by
  rw [pyInt_natStr]
  congr 1
  exact Int.natAbs_of_nonneg (le_of_lt hk)

theorem generate_scope_member_shape (m : Nat) (k : Int) (net : PyStr) (hk : 0 < k) :
    JWT.generate_scope (.uuid m) IdType.member (some k) net =
      "urn:".data ++ ' ' ::
        (uuidCanonical m ++ '.' ::
          (("members-".data ++ natStr k.natAbs) ++ '.' :: net)) := by
  have hk0 : ¬ (k = 0) := by omega
  simp only [JWT.generate_scope, ScopeId.render, IdType.value, hk0, if_false]
  rw [intStr_of_pos hk]
  simp only [List.append_assoc, List.cons_append, List.nil_append]

/-- The characters of the stripped member scope body are never whitespace
(given a whitespace-free network name). -/
theorem member_scope_body_nonspace (m : Nat) (k : Int) (net : PyStr)
    (hnet : ∀ c ∈ net, isPySpace c = false) :
    ∀ c ∈ uuidCanonical m ++ '.' ::
        (("members-".data ++ natStr k.natAbs) ++ '.' :: net),
      isPySpace c = false := by
  intro c hc
  rcases List.mem_append.mp hc with hc | hc
  · exact (uuidCanonical_no_dot_no_space hc).2.1
  · rcases List.mem_cons.mp hc with rfl | hc
    · rfl
    · rcases List.mem_append.mp hc with hc | hc
      · rcases List.mem_append.mp hc with hc | hc
        · have hmem : ∀ x ∈ "members-".data, isPySpace x = false := by decide
          exact hmem c hc
        · exact (natStr_no_dot_no_hyphen_no_space hc).2.2
      · rcases List.mem_cons.mp hc with rfl | hc
        · rfl
        · exact hnet c hc

set_option maxHeartbeats 1000000 in
theorem parse_scope_member_aux (j : JWTState) (host digits net : PyStr)
    (k : Int) (u : Nat)
    (hscope : j.scope = "urn:".data ++ ' ' ::
      (host ++ '.' :: (("members".data ++ '-' :: digits) ++ '.' :: net)))
    (hsid : j.service_id = some k)
    (hnsp : ∀ c ∈ host ++ '.' :: (("members".data ++ '-' :: digits) ++ '.' :: net),
      isPySpace c = false)
    (hdotH : '.' ∉ host)
    (hdotS : '.' ∉ "members".data ++ '-' :: digits)
    (hhyD : '-' ∉ digits)
    (hint : pyInt digits = some k)
    (huuid : pythonUUID host = some u) :
    JWT.parse_scope j net = .ok { j with
      scope := host ++ '.' :: (("members".data ++ '-' :: digits) ++ '.' :: net),
      scope_type := some IdType.member,
      scope_id := some (.uuid u) } := by
  unfold JWT.parse_scope
  rw [hscope]
  rw [pyStartsWith_append "urn:".data
    (' ' :: (host ++ '.' :: (("members".data ++ '-' :: digits) ++ '.' :: net)))]
  simp only [if_true]
  rw [show ∀ Z : PyStr, ("urn:".data ++ ' ' :: Z).drop 4 = ' ' :: Z from fun Z => rfl]
  rw [pyStrip_space_cons hnsp]
  rw [pySplit3_parts hdotH hdotS]
  dsimp only
  rw [if_neg (by simp : ¬ (net ≠ net))]
  have hcont : ("members".data ++ '-' :: digits).contains '-' = true :=
    mem_contains_true (List.mem_append.mpr (Or.inr (List.mem_cons_self _ _)))
  rw [hcont]
  simp only [if_true]
  rw [pySplit_single_sep (by decide) hhyD]
  dsimp only
  rw [hint]
  dsimp only
  rw [hsid]
  rw [if_neg (by simp : ¬ (some k ≠ some k))]
  rw [show IdType.fromValue ("members".data ++ ['-']) = some IdType.member from rfl]
  dsimp only
  rw [show (IdType.member == IdType.service) = false from rfl]
  simp only [Bool.false_eq_true, if_false]
  rw [huuid]

theorem parse_scope_member_roundtrip (j : JWTState) (m : Nat) (k : Int)
    (net : PyStr) (hm : m < 2 ^ 128) (hk : 0 < k)
    (hnet : ∀ c ∈ net, isPySpace c = false)
    (hscope : j.scope = JWT.generate_scope (.uuid m) IdType.member (some k) net)
    (hsid : j.service_id = some k) :
    JWT.parse_scope j net =
      .ok { j with
        scope := uuidCanonical m ++ '.' ::
          (("members-".data ++ natStr k.natAbs) ++ '.' :: net),
        scope_type := some IdType.member,
        scope_id := some (.uuid m) } := by
  have hshape : j.scope = "urn:".data ++ ' ' ::
      (uuidCanonical m ++ '.' ::
        (("members-".data ++ natStr k.natAbs) ++ '.' :: net)) := by
    rw [hscope, generate_scope_member_shape m k net hk]
  have hdotH : '.' ∉ uuidCanonical m := by
    intro hc
    exact (uuidCanonical_no_dot_no_space hc).1 rfl
  have hdotS : '.' ∉ "members".data ++ '-' :: natStr k.natAbs := by
    intro hc
    rcases List.mem_append.mp hc with hc | hc
    · revert hc; decide
    · rcases List.mem_cons.mp hc with he | hc
      · exact absurd he (by decide)
      · exact (natStr_no_dot_no_hyphen_no_space hc).1 rfl
  have hhyD : '-' ∉ natStr k.natAbs := by
    intro hc
    exact (natStr_no_dot_no_hyphen_no_space hc).2.1 rfl
  exact parse_scope_member_aux j (uuidCanonical m) (natStr k.natAbs) net k m
    hshape hsid (member_scope_body_nonspace m k net hnet) hdotH hdotS hhyD
    (pyInt_natAbs_of_pos hk) (pythonUUID_uuidCanonical hm)

theorem contains_of_mem {α : Type} [BEq α] [LawfulBEq α] {a : α} {l : List α}
    (h : a ∈ l) : l.contains a = true :=
  List.elem_eq_true_of_mem h

set_option maxHeartbeats 1000000 in
theorem c6_member_branch
    (identifier : Nat) (secret : Secret) (c : PyCert) (key : Nat)
    (net : PyStr) (k : Int) (m : Nat) (now nowD days : Int)
    (hcert : secret.cert = some c)
    (hkey : secret.private_key = some key)
    (hpair : c.publicKey = key)
    (hident : identifier < 2 ^ 128)
    (hm : m < 2 ^ 128)
    (hk : 0 < k)
    (hnet : ∀ ch ∈ net, isPySpace ch = false)
    (hnow : nowD ≤ now + days * 86400 + 10) :
    JWT.decode (pyJwtEncode (JWT.buildClaims
      { JWT.init net with
        scope := JWT.generate_scope (.uuid m) IdType.member (some k) net,
        issuer_id := some (.str ("member_id-".data ++ uuidCanonical identifier)),
        issuer_type := some IdType.member,
        service_id := some k,
        scope_type := some IdType.member,
        scope_id := some (.uuid m),
        secret := some secret,
        expiration := some (now + days * 86400) }) key JWT_ALGO_PREFFERED)
      secret net nowD = .ok
      { expiration := some (now + days * 86400),
        issuer := some ("member_id-".data ++ uuidCanonical identifier),
        issuer_id := some (.uuid identifier),
        issuer_type := some IdType.member,
        audience := ["urn: network-".data ++ net],
        scope := uuidCanonical m ++ '.' ::
          (("members-".data ++ natStr k.natAbs) ++ '.' :: net),
        scope_type := some IdType.member,
        scope_id := some (.uuid m),
        secret := some secret,
        service_id := some k,
        verified := some true,
        network_name := [] } := by
  have hjwtdec : pyJwtDecode (pyJwtEncode (JWT.buildClaims
      { JWT.init net with
        scope := JWT.generate_scope (.uuid m) IdType.member (some k) net,
        issuer_id := some (.str ("member_id-".data ++ uuidCanonical identifier)),
        issuer_type := some IdType.member,
        service_id := some k,
        scope_type := some IdType.member,
        scope_id := some (.uuid m),
        secret := some secret,
        expiration := some (now + days * 86400) }) key JWT_ALGO_PREFFERED)
      c.publicKey ("urn: network-".data ++ net) nowD = .ok (JWT.buildClaims
      { JWT.init net with
        scope := JWT.generate_scope (.uuid m) IdType.member (some k) net,
        issuer_id := some (.str ("member_id-".data ++ uuidCanonical identifier)),
        issuer_type := some IdType.member,
        service_id := some k,
        scope_type := some IdType.member,
        scope_id := some (.uuid m),
        secret := some secret,
        expiration := some (now + days * 86400) }) := by
    unfold pyJwtDecode pyJwtEncode
    dsimp only [JWT.buildClaims, JWT.init, JWT.renderIssuerId, Option.getD_some]
    rw [hpair]
    rw [show (JWT_ALGO_ACCEPTED.contains JWT_ALGO_PREFFERED) = true from rfl]
    rw [if_neg (by simp : ¬ (key ≠ key))]
    rw [show ∀ x : PyStr, ([x].contains x) = true from fun x => contains_of_mem (by simp)]
    rw [if_neg (by omega : ¬ ((now + days * 86400 : Int) < nowD - 10))]
    simp only [Bool.not_true, Bool.false_eq_true, if_false]
  have hissnsp : ∀ ch ∈ ((['m', 'e', 'm', 'b', 'e', 'r', '_', 'i', 'd', '-'] : PyStr)
      ++ uuidCanonical identifier), isPySpace ch = false := by
    intro ch hch
    rcases List.mem_append.mp hch with h | h
    · have hlit : ∀ x ∈ (['m', 'e', 'm', 'b', 'e', 'r', '_', 'i', 'd', '-'] : PyStr),
          isPySpace x = false := by decide
      exact hlit ch h
    · exact (uuidCanonical_no_dot_no_space h).2.1
  unfold JWT.decode
  rw [hcert]
  show (match pyJwtDecode (pyJwtEncode (JWT.buildClaims
      { JWT.init net with
        scope := JWT.generate_scope (.uuid m) IdType.member (some k) net,
        issuer_id := some (.str ("member_id-".data ++ uuidCanonical identifier)),
        issuer_type := some IdType.member,
        service_id := some k,
        scope_type := some IdType.member,
        scope_id := some (.uuid m),
        secret := some secret,
        expiration := some (now + days * 86400) }) key JWT_ALGO_PREFFERED)
      c.publicKey ("urn: network-".data ++ net) nowD with
    | Except.error e => Except.error e
    | Except.ok data =>
      if List.isEmpty data.iss = true then
        Except.error (PyError.valueError "No issuer specified in the JWT".data)
      else
        if (!pyStartsWith data.iss "urn:".data) = true then
          Except.error (PyError.valueError "JWT issuer does not start with urn:".data)
        else
          let issuer := pyStrip (List.drop 4 data.iss)
          let parsedIssuer : Except PyError (IdType × Nat) :=
            if pyStartsWith issuer "member_id-".data then
              match pythonUUID (issuer.drop "member_id-".data.length) with
              | some n => .ok (IdType.member, n)
              | none =>
                .error (.valueError "badly formed hexadecimal UUID string".data)
            else if pyStartsWith issuer "account_id-".data then
              match pythonUUID (issuer.drop "account_id-".data.length) with
              | some n => .ok (IdType.account, n)
              | none =>
                .error (.valueError "badly formed hexadecimal UUID string".data)
            else .error (.valueError ("Invalid issuer in JWT: ".data ++ issuer))
          match parsedIssuer with
          | .error e => .error e
          | .ok (issuerType, issuerId) =>
            match data.aud with
            | [a0] =>
              if !(pyEndsWith a0 net) then
                .error (.valueError "Invalid audience in JWT".data)
              else
                let jwt0 : JWTState :=
                  { expiration := some data.exp,
                    issuer := some issuer,
                    issuer_id := some (.uuid issuerId),
                    issuer_type := some issuerType,
                    audience := data.aud,
                    scope := data.scope,
                    service_id := data.service_id,
                    secret := some secret,
                    verified := some true }
                JWT.parse_scope jwt0 net
            | _ => .error (.valueError "Invalid audience targets in JWT".data))
    = Except.ok
      { expiration := some (now + days * 86400),
        issuer := some ("member_id-".data ++ uuidCanonical identifier),
        issuer_id := some (.uuid identifier),
        issuer_type := some IdType.member,
        audience := ["urn: network-".data ++ net],
        scope := uuidCanonical m ++ '.' ::
          (("members-".data ++ natStr k.natAbs) ++ '.' :: net),
        scope_type := some IdType.member,
        scope_id := some (.uuid m),
        secret := some secret,
        service_id := some k,
        verified := some true,
        network_name := [] }
  rw [hjwtdec]
  dsimp only
  dsimp only [JWT.buildClaims, JWT.init, JWT.renderIssuerId, Option.getD_some]
  rw [show ∀ X : PyStr, ((['u', 'r', 'n', ':', ' '] : PyStr) ++ X).isEmpty = false
    from fun _ => rfl]
  simp only [Bool.false_eq_true, if_false]
  rw [show ∀ X : PyStr, pyStartsWith ((['u', 'r', 'n', ':', ' '] : PyStr) ++ X)
      (['u', 'r', 'n', ':'] : PyStr) = true
    from fun X => pyStartsWith_append (['u', 'r', 'n', ':'] : PyStr) (' ' :: X)]
  simp only [Bool.not_true, Bool.false_eq_true, if_false]
  rw [show ∀ X : PyStr, List.drop 4 ((['u', 'r', 'n', ':', ' '] : PyStr) ++ X)
    = ' ' :: X from fun _ => rfl]
  rw [pyStrip_space_cons hissnsp]
  rw [show ∀ X : PyStr, pyStartsWith
      ((['m', 'e', 'm', 'b', 'e', 'r', '_', 'i', 'd', '-'] : PyStr) ++ X)
      (['m', 'e', 'm', 'b', 'e', 'r', '_', 'i', 'd', '-'] : PyStr) = true
    from fun X => pyStartsWith_append _ X]
  simp only [if_true]
  rw [show ∀ X : PyStr, List.drop
      ((['m', 'e', 'm', 'b', 'e', 'r', '_', 'i', 'd', '-'] : PyStr).length)
      ((['m', 'e', 'm', 'b', 'e', 'r', '_', 'i', 'd', '-'] : PyStr) ++ X) = X
    from fun _ => rfl]
  rw [pythonUUID_uuidCanonical hident]
  dsimp only
  rw [show ∀ X : PyStr, pyEndsWith ((['u', 'r', 'n', ':', ' ', 'n', 'e', 't', 'w',
      'o', 'r', 'k', '-'] : PyStr) ++ X) X = true
    from fun X => pyEndsWith_append _ X]
  simp only [Bool.not_true, Bool.false_eq_true, if_false]
  exact parse_scope_member_roundtrip _ m k net hm hk hnet rfl rfl

set_option maxHeartbeats 1000000 in
theorem c6_account_branch
    (identifier : Nat) (secret : Secret) (c : PyCert) (key : Nat)
    (net : PyStr) (k : Int) (m : Nat) (now nowD days : Int)
    (hcert : secret.cert = some c)
    (hkey : secret.private_key = some key)
    (hpair : c.publicKey = key)
    (hident : identifier < 2 ^ 128)
    (hm : m < 2 ^ 128)
    (hk : 0 < k)
    (hnet : ∀ ch ∈ net, isPySpace ch = false)
    (hnow : nowD ≤ now + days * 86400 + 10) :
    JWT.decode (pyJwtEncode (JWT.buildClaims
      { JWT.init net with
        scope := JWT.generate_scope (.uuid m) IdType.member (some k) net,
        issuer_id := some (.str ("account_id-".data ++ uuidCanonical identifier)),
        issuer_type := some IdType.account,
        service_id := some k,
        scope_type := some IdType.member,
        scope_id := some (.uuid m),
        secret := some secret,
        expiration := some (now + days * 86400) }) key JWT_ALGO_PREFFERED)
      secret net nowD = .ok
      { expiration := some (now + days * 86400),
        issuer := some ("account_id-".data ++ uuidCanonical identifier),
        issuer_id := some (.uuid identifier),
        issuer_type := some IdType.account,
        audience := ["urn: network-".data ++ net],
        scope := uuidCanonical m ++ '.' ::
          (("members-".data ++ natStr k.natAbs) ++ '.' :: net),
        scope_type := some IdType.member,
        scope_id := some (.uuid m),
        secret := some secret,
        service_id := some k,
        verified := some true,
        network_name := [] } := by
  have hjwtdec : pyJwtDecode (pyJwtEncode (JWT.buildClaims
      { JWT.init net with
        scope := JWT.generate_scope (.uuid m) IdType.member (some k) net,
        issuer_id := some (.str ("account_id-".data ++ uuidCanonical identifier)),
        issuer_type := some IdType.account,
        service_id := some k,
        scope_type := some IdType.member,
        scope_id := some (.uuid m),
        secret := some secret,
        expiration := some (now + days * 86400) }) key JWT_ALGO_PREFFERED)
      c.publicKey ("urn: network-".data ++ net) nowD = .ok (JWT.buildClaims
      { JWT.init net with
        scope := JWT.generate_scope (.uuid m) IdType.member (some k) net,
        issuer_id := some (.str ("account_id-".data ++ uuidCanonical identifier)),
        issuer_type := some IdType.account,
        service_id := some k,
        scope_type := some IdType.member,
        scope_id := some (.uuid m),
        secret := some secret,
        expiration := some (now + days * 86400) }) := by
    unfold pyJwtDecode pyJwtEncode
    dsimp only [JWT.buildClaims, JWT.init, JWT.renderIssuerId, Option.getD_some]
    rw [hpair]
    rw [show (JWT_ALGO_ACCEPTED.contains JWT_ALGO_PREFFERED) = true from rfl]
    rw [if_neg (by simp : ¬ (key ≠ key))]
    rw [show ∀ x : PyStr, ([x].contains x) = true from fun x => contains_of_mem (by simp)]
    rw [if_neg (by omega : ¬ ((now + days * 86400 : Int) < nowD - 10))]
    simp only [Bool.not_true, Bool.false_eq_true, if_false]
  have hissnsp : ∀ ch ∈ ((['a', 'c', 'c', 'o', 'u', 'n', 't', '_', 'i', 'd', '-'] : PyStr)
      ++ uuidCanonical identifier), isPySpace ch = false := by
    intro ch hch
    rcases List.mem_append.mp hch with h | h
    · have hlit : ∀ x ∈ (['a', 'c', 'c', 'o', 'u', 'n', 't', '_', 'i', 'd', '-'] : PyStr),
          isPySpace x = false := by decide
      exact hlit ch h
    · exact (uuidCanonical_no_dot_no_space h).2.1
  unfold JWT.decode
  rw [hcert]
  show (match pyJwtDecode (pyJwtEncode (JWT.buildClaims
      { JWT.init net with
        scope := JWT.generate_scope (.uuid m) IdType.member (some k) net,
        issuer_id := some (.str ("account_id-".data ++ uuidCanonical identifier)),
        issuer_type := some IdType.account,
        service_id := some k,
        scope_type := some IdType.member,
        scope_id := some (.uuid m),
        secret := some secret,
        expiration := some (now + days * 86400) }) key JWT_ALGO_PREFFERED)
      c.publicKey ("urn: network-".data ++ net) nowD with
    | Except.error e => Except.error e
    | Except.ok data =>
      if List.isEmpty data.iss = true then
        Except.error (PyError.valueError "No issuer specified in the JWT".data)
      else
        if (!pyStartsWith data.iss "urn:".data) = true then
          Except.error (PyError.valueError "JWT issuer does not start with urn:".data)
        else
          let issuer := pyStrip (List.drop 4 data.iss)
          let parsedIssuer : Except PyError (IdType × Nat) :=
            if pyStartsWith issuer "member_id-".data then
              match pythonUUID (issuer.drop "member_id-".data.length) with
              | some n => .ok (IdType.member, n)
              | none =>
                .error (.valueError "badly formed hexadecimal UUID string".data)
            else if pyStartsWith issuer "account_id-".data then
              match pythonUUID (issuer.drop "account_id-".data.length) with
              | some n => .ok (IdType.account, n)
              | none =>
                .error (.valueError "badly formed hexadecimal UUID string".data)
            else .error (.valueError ("Invalid issuer in JWT: ".data ++ issuer))
          match parsedIssuer with
          | .error e => .error e
          | .ok (issuerType, issuerId) =>
            match data.aud with
            | [a0] =>
              if !(pyEndsWith a0 net) then
                .error (.valueError "Invalid audience in JWT".data)
              else
                let jwt0 : JWTState :=
                  { expiration := some data.exp,
                    issuer := some issuer,
                    issuer_id := some (.uuid issuerId),
                    issuer_type := some issuerType,
                    audience := data.aud,
                    scope := data.scope,
                    service_id := data.service_id,
                    secret := some secret,
                    verified := some true }
                JWT.parse_scope jwt0 net
            | _ => .error (.valueError "Invalid audience targets in JWT".data))
    = Except.ok
      { expiration := some (now + days * 86400),
        issuer := some ("account_id-".data ++ uuidCanonical identifier),
        issuer_id := some (.uuid identifier),
        issuer_type := some IdType.account,
        audience := ["urn: network-".data ++ net],
        scope := uuidCanonical m ++ '.' ::
          (("members-".data ++ natStr k.natAbs) ++ '.' :: net),
        scope_type := some IdType.member,
        scope_id := some (.uuid m),
        secret := some secret,
        service_id := some k,
        verified := some true,
        network_name := [] }
  rw [hjwtdec]
  dsimp only
  dsimp only [JWT.buildClaims, JWT.init, JWT.renderIssuerId, Option.getD_some]
  rw [show ∀ X : PyStr, ((['u', 'r', 'n', ':', ' '] : PyStr) ++ X).isEmpty = false
    from fun _ => rfl]
  simp only [Bool.false_eq_true, if_false]
  rw [show ∀ X : PyStr, pyStartsWith ((['u', 'r', 'n', ':', ' '] : PyStr) ++ X)
      (['u', 'r', 'n', ':'] : PyStr) = true
    from fun X => pyStartsWith_append (['u', 'r', 'n', ':'] : PyStr) (' ' :: X)]
  simp only [Bool.not_true, Bool.false_eq_true, if_false]
  rw [show ∀ X : PyStr, List.drop 4 ((['u', 'r', 'n', ':', ' '] : PyStr) ++ X)
    = ' ' :: X from fun _ => rfl]
  rw [pyStrip_space_cons hissnsp]
  rw [show ∀ X : PyStr, pyStartsWith
      ((['a', 'c', 'c', 'o', 'u', 'n', 't', '_', 'i', 'd', '-'] : PyStr) ++ X)
      (['m', 'e', 'm', 'b', 'e', 'r', '_', 'i', 'd', '-'] : PyStr) = false
    from fun _ => rfl]
  simp only [Bool.false_eq_true, if_false]
  rw [show ∀ X : PyStr, pyStartsWith
      ((['a', 'c', 'c', 'o', 'u', 'n', 't', '_', 'i', 'd', '-'] : PyStr) ++ X)
      (['a', 'c', 'c', 'o', 'u', 'n', 't', '_', 'i', 'd', '-'] : PyStr) = true
    from fun X => pyStartsWith_append _ X]
  simp only [if_true]
  rw [show ∀ X : PyStr, List.drop
      ((['a', 'c', 'c', 'o', 'u', 'n', 't', '_', 'i', 'd', '-'] : PyStr).length)
      ((['a', 'c', 'c', 'o', 'u', 'n', 't', '_', 'i', 'd', '-'] : PyStr) ++ X) = X
    from fun _ => rfl]
  rw [pythonUUID_uuidCanonical hident]
  dsimp only
  rw [show ∀ X : PyStr, pyEndsWith ((['u', 'r', 'n', ':', ' ', 'n', 'e', 't', 'w',
      'o', 'r', 'k', '-'] : PyStr) ++ X) X = true
    from fun X => pyEndsWith_append _ X]
  simp only [Bool.not_true, Bool.false_eq_true, if_false]
  exact parse_scope_member_roundtrip _ m k net hm hk hnet rfl rfl

theorem decode_wrong_key (tok : EncodedJWT) (secret : Secret) (c : PyCert)
    (net : PyStr) (nowD : Int)
    (hcert : secret.cert = some c)
    (halgo : tok.algorithm = "RS256")
    (hne : tok.signingKey ≠ c.publicKey) :
    JWT.decode tok secret net nowD =
      .error (.valueError "Signature verification failed".data) := by
  have hdec : pyJwtDecode tok c.publicKey
      ((['u', 'r', 'n', ':', ' ', 'n', 'e', 't', 'w', 'o', 'r', 'k', '-'] : PyStr)
        ++ net) nowD
      = .error (.valueError "Signature verification failed".data) := by
    unfold pyJwtDecode
    rw [halgo]
    rw [show (JWT_ALGO_ACCEPTED.contains "RS256") = true from rfl]
    rw [if_pos hne]
    simp
  unfold JWT.decode
  rw [hcert]
  dsimp only
  rw [hdec]

/-- Claim C6 as amended: for every issuance input with an account or
member subject, a signing identity whose certificate public key matches
its private key, a positive service id, a member scope with a UUID scope
id, a whitespace-free network name and a decode instant within the token
lifetime (plus the 10-second leeway), issue followed by decode of the
encoded token with the signing identity as trusted signer yields a token
with verified = true and issuer type/id, audience, service id and scope
type/id identical to the issuance inputs; and altering the token
signature (re-signing with any other key, the model of tampering) makes
decode fail with the signature-verification error. -/
theorem c6_round_trip :
    ∀ (identifier : Nat) (id_type : IdType) (secret : Secret) (c : PyCert)
      (key : Nat) (net : PyStr) (k : Int) (m : Nat) (now nowD days : Int)
      (j : JWTState) (tok : EncodedJWT),
      (id_type = IdType.account ∨ id_type = IdType.member) →
      secret.cert = some c →
      secret.private_key = some key →
      c.publicKey = key →
      identifier < 2 ^ 128 →
      m < 2 ^ 128 →
      0 < k →
      (∀ ch ∈ net, isPySpace ch = false) →
      nowD ≤ now + days * 86400 + 10 →
      JWT.create identifier id_type secret net (some k) IdType.member
          (.uuid m) now days = .ok j →
      JWT.encode j = .ok tok →
      (∃ d : JWTState,
        JWT.decode tok secret net nowD = .ok d ∧
        d.verified = some true ∧
        d.issuer_type = some id_type ∧
        d.issuer_id = some (.uuid identifier) ∧
        d.audience = ["urn: network-".data ++ net] ∧
        d.service_id = some k ∧
        d.scope_type = some IdType.member ∧
        d.scope_id = some (.uuid m)) ∧
      (∀ key2 : Nat, key2 ≠ key →
        JWT.decode { tok with signingKey := key2 } secret net nowD =
          .error (.valueError "Signature verification failed".data)) := by
  intro identifier id_type secret c key net k m now nowD days j tok
    hidty hcert hkey hpair hident hm hk hnet hnow hcreate hencode
  rcases hidty with rfl | rfl
  · -- account subject
    rw [show JWT.create identifier IdType.account secret net (some k)
        IdType.member (.uuid m) now days = .ok
      { JWT.init net with
        scope := JWT.generate_scope (.uuid m) IdType.member (some k) net,
        issuer_id := some (.str ("account_id-".data ++ uuidCanonical identifier)),
        issuer_type := some IdType.account,
        service_id := some k,
        scope_type := some IdType.member,
        scope_id := some (.uuid m),
        secret := some secret,
        expiration := some (now + days * 86400) } from rfl] at hcreate
    injection hcreate with hj
    subst hj
    have hencEq : JWT.encode
      { JWT.init net with
        scope := JWT.generate_scope (.uuid m) IdType.member (some k) net,
        issuer_id := some (.str ("account_id-".data ++ uuidCanonical identifier)),
        issuer_type := some IdType.account,
        service_id := some k,
        scope_type := some IdType.member,
        scope_id := some (.uuid m),
        secret := some secret,
        expiration := some (now + days * 86400) } = .ok (pyJwtEncode (JWT.buildClaims
      { JWT.init net with
        scope := JWT.generate_scope (.uuid m) IdType.member (some k) net,
        issuer_id := some (.str ("account_id-".data ++ uuidCanonical identifier)),
        issuer_type := some IdType.account,
        service_id := some k,
        scope_type := some IdType.member,
        scope_id := some (.uuid m),
        secret := some secret,
        expiration := some (now + days * 86400) }) key JWT_ALGO_PREFFERED) := by
      unfold JWT.encode
      dsimp only
      rw [hkey]
    rw [hencEq] at hencode
    injection hencode with htok
    subst htok
    refine ⟨⟨_, c6_account_branch identifier secret c key net k m now nowD days
      hcert hkey hpair hident hm hk hnet hnow, rfl, rfl, rfl, rfl, rfl, rfl, rfl⟩, ?_⟩
    intro key2 hk2
    apply decode_wrong_key _ _ c _ _ hcert rfl
    show key2 ≠ c.publicKey
    rw [hpair]
    exact hk2
  · -- member subject
    rw [show JWT.create identifier IdType.member secret net (some k)
        IdType.member (.uuid m) now days = .ok
      { JWT.init net with
        scope := JWT.generate_scope (.uuid m) IdType.member (some k) net,
        issuer_id := some (.str ("member_id-".data ++ uuidCanonical identifier)),
        issuer_type := some IdType.member,
        service_id := some k,
        scope_type := some IdType.member,
        scope_id := some (.uuid m),
        secret := some secret,
        expiration := some (now + days * 86400) } from rfl] at hcreate
    injection hcreate with hj
    subst hj
    have hencEq : JWT.encode
      { JWT.init net with
        scope := JWT.generate_scope (.uuid m) IdType.member (some k) net,
        issuer_id := some (.str ("member_id-".data ++ uuidCanonical identifier)),
        issuer_type := some IdType.member,
        service_id := some k,
        scope_type := some IdType.member,
        scope_id := some (.uuid m),
        secret := some secret,
        expiration := some (now + days * 86400) } = .ok (pyJwtEncode (JWT.buildClaims
      { JWT.init net with
        scope := JWT.generate_scope (.uuid m) IdType.member (some k) net,
        issuer_id := some (.str ("member_id-".data ++ uuidCanonical identifier)),
        issuer_type := some IdType.member,
        service_id := some k,
        scope_type := some IdType.member,
        scope_id := some (.uuid m),
        secret := some secret,
        expiration := some (now + days * 86400) }) key JWT_ALGO_PREFFERED) := by
      unfold JWT.encode
      dsimp only
      rw [hkey]
    rw [hencEq] at hencode
    injection hencode with htok
    subst htok
    refine ⟨⟨_, c6_member_branch identifier secret c key net k m now nowD days
      hcert hkey hpair hident hm hk hnet hnow, rfl, rfl, rfl, rfl, rfl, rfl, rfl⟩, ?_⟩
    intro key2 hk2
    apply decode_wrong_key _ _ c _ _ hcert rfl
    show key2 ≠ c.publicKey
    rw [hpair]
    exact hk2

/-- The JWTState produced by the concrete witness issuance. -/
def c6WitnessJwt : JWTState :=
  { JWT.init "byoda.net".data with
    scope := JWT.generate_scope (.uuid 5) IdType.member (some 1234) "byoda.net".data,
    issuer_id := some (.str ("member_id-".data ++ uuidCanonical 7)),
    issuer_type := some IdType.member,
    service_id := some 1234,
    scope_type := some IdType.member,
    scope_id := some (.uuid 5),
    secret := some c6MemberSecret,
    expiration := some (1000 + 365 * 86400) }

/-- Witness for C6: the member identity 7 (key pair 42) issues a token for
service 1234 scoped to member UUID 5 on byoda.net; decode at the issuance
instant verifies it with all fields matching, and a token re-signed with
key 43 is rejected. -/
theorem c6_round_trip_witness :
    (∃ d : JWTState,
      JWT.decode (pyJwtEncode (JWT.buildClaims c6WitnessJwt) 42 JWT_ALGO_PREFFERED)
          c6MemberSecret "byoda.net".data 1000 = .ok d ∧
      d.verified = some true ∧
      d.issuer_type = some IdType.member ∧
      d.issuer_id = some (.uuid 7) ∧
      d.audience = ["urn: network-byoda.net".data] ∧
      d.service_id = some 1234 ∧
      d.scope_type = some IdType.member ∧
      d.scope_id = some (.uuid 5)) ∧
    JWT.decode
        { pyJwtEncode (JWT.buildClaims c6WitnessJwt) 42 JWT_ALGO_PREFFERED with
          signingKey := 43 }
        c6MemberSecret "byoda.net".data 1000 =
      .error (.valueError "Signature verification failed".data) := by
  have h := c6_round_trip 7 IdType.member c6MemberSecret c6MemberCert 42
    "byoda.net".data 1234 5 1000 1000 365 c6WitnessJwt
    (pyJwtEncode (JWT.buildClaims c6WitnessJwt) 42 JWT_ALGO_PREFFERED)
    (Or.inr rfl) rfl rfl rfl (by decide) (by decide) (by decide) (by decide)
    (by decide) rfl rfl
  exact ⟨h.1, h.2 43 (by decide)⟩

/-! ### Claim C7: Secret.load error handling -/

/-- A concrete leaf certificate stored in the witness file system. -/
def c7Cert : PyCert :=
  { subject := ["CN=me".data], issuer := ["CN=ca".data], publicKey := 5,
    serialNumber := 1, notValidBefore := 0, notValidAfter := 9,
    basicConstraints := some false, signedWith := some 1 }

/-- A file system holding the certificate file but NOT the private key
file. -/
def c7Fs : FileSystem :=
  { certFiles := fun p => if p = "cert.pem".data then some [c7Cert] else none,
    keyFiles := fun _ => none }

/-- A fresh Secret configured with the two file paths. -/
def c7Secret : Secret :=
  { cert_file := "cert.pem".data, private_key_file := "key.pem".data }

/-- Claim C7: load on an already-populated Secret fails with the
already-populated ValueError, and load with the certificate file absent
fails with FileNotFoundError; BUT, contradicting the claim (and the
docstring of `Secret.load` itself), when the private key file is absent
and the private key was requested, load does NOT fail: the source catches
the FileNotFoundError, logs it and returns normally with
`private_key = None`. -/
theorem c7_load_missing_key_not_reraised :
    Secret.load c7Fs { c7Secret with cert := some c7Cert } true [] =
      .error (.valueError "Secret already has certificate and/or private key".data) ∧
    Secret.load c7Fs { c7Secret with private_key := some 3 } true [] =
      .error (.valueError "Secret already has certificate and/or private key".data) ∧
    Secret.load { c7Fs with certFiles := fun x => none } c7Secret true [] =
      .error (.fileNotFoundError "cert.pem".data) ∧
    Secret.load c7Fs c7Secret true [] =
      .ok { c7Secret with cert := some c7Cert, ca := false, private_key := none } := by
  refine ⟨rfl, rfl, rfl, rfl⟩

/-! ### Claim C8: shared-key round trip -/

/-- Claim C8: after A creates a shared key for target B (B holding a
certificate whose public key is paired with its private key), the wrapped
key is an OAEP ciphertext with SHA-256 for both MGF and digest;
B.load_shared_key on it recovers symmetric key bytes identical to the key
A stores; encrypt-then-decrypt under the shared key reproduces the
plaintext exactly; and on a Secret with no shared key both encrypt and
decrypt fail with the no-shared-secret KeyError. -/
theorem c8_shared_key_round_trip :
    ∀ (a b : Secret) (cB : PyCert) (keyB freshKey : Nat) (plaintext : PyStr)
      (a2 : Secret),
      b.cert = some cB →
      b.private_key = some keyB →
      cB.publicKey = keyB →
      Secret.create_shared_key a b freshKey = .ok a2 →
      (a2.shared_key = some freshKey ∧
        (∃ w : OAEPCiphertext,
          a2.protected_shared_key = some w ∧
          w.params = oaepSha256 ∧
          (∃ b2 : Secret,
            Secret.load_shared_key b w = .ok b2 ∧
            b2.shared_key = some freshKey))) ∧
      (∃ ct : FernetToken,
        Secret.encrypt a2 plaintext = .ok ct ∧
        Secret.decrypt a2 ct = .ok plaintext) ∧
      (∀ s : Secret, s.shared_key = none →
        Secret.encrypt s plaintext =
          .error (.keyError "No shared secret available to encrypt".data) ∧
        Secret.decrypt s (fernetEncrypt freshKey plaintext) =
          .error (.keyError "No shared secret available to decrypt".data)) := by
  intro a b cB keyB freshKey plaintext a2 hcert hkey hpair hcreate
  unfold Secret.create_shared_key at hcreate
  rw [hcert] at hcreate
  injection hcreate with ha2
  subst ha2
  refine ⟨⟨rfl, ⟨_, rfl, rfl, ?_⟩⟩, ⟨_, rfl, ?_⟩, ?_⟩
  · have hload : Secret.load_shared_key b
        (rsaEncryptOAEP cB.publicKey oaepSha256 freshKey) =
        .ok { b with
          protected_shared_key :=
            some (rsaEncryptOAEP cB.publicKey oaepSha256 freshKey),
          shared_key := some freshKey } := by
      unfold Secret.load_shared_key
      rw [hkey]
      unfold rsaDecryptOAEP rsaEncryptOAEP
      dsimp only
      rw [hpair]
      simp
    exact ⟨_, hload, rfl⟩
  · show Secret.decrypt _ (fernetEncrypt freshKey plaintext) = .ok plaintext
    unfold Secret.decrypt
    dsimp only
    unfold fernetDecrypt fernetEncrypt
    simp
  · intro s hs
    unfold Secret.encrypt Secret.decrypt
    rw [hs]
    exact ⟨rfl, rfl⟩

/-- The Secret of identity B in the C8 witness: key pair 5. -/
def c8B : Secret := { cert := some c7Cert, private_key := some 5 }

/-- The state of identity A after creating the shared key 99 for B. -/
def c8A2 : Secret :=
  { shared_key := some 99,
    protected_shared_key := some (rsaEncryptOAEP 5 oaepSha256 99) }

/-- Witness for C8: A wraps fresh key 99 for B (key pair 5) and the round
trips hold at plaintext hello. -/
theorem c8_shared_key_round_trip_witness :
    Secret.create_shared_key { } c8B 99 = .ok c8A2 ∧
    ((c8A2.shared_key = some 99 ∧
      (∃ w : OAEPCiphertext,
        c8A2.protected_shared_key = some w ∧
        w.params = oaepSha256 ∧
        (∃ b2 : Secret,
          Secret.load_shared_key c8B w = .ok b2 ∧
          b2.shared_key = some 99))) ∧
    (∃ ct : FernetToken,
      Secret.encrypt c8A2 "hello".data = .ok ct ∧
      Secret.decrypt c8A2 ct = .ok "hello".data) ∧
    (∀ s : Secret, s.shared_key = none →
      Secret.encrypt s "hello".data =
        .error (.keyError "No shared secret available to encrypt".data) ∧
      Secret.decrypt s (fernetEncrypt 99 "hello".data) =
        .error (.keyError "No shared secret available to decrypt".data))) :=
  ⟨rfl, c8_shared_key_round_trip { } c8B c7Cert 5 99 "hello".data c8A2
    rfl rfl rfl rfl⟩

/-! ### Claim C9: scalar normalization -/

/-- Counterexample for C9 as stated: for the datetime-typed scalar and the
instant 1970-01-01T00:00:00+00:00 (Unix timestamp 0), normalize applied to
the ISO-8601 string returns a timezone-aware datetime at epoch 0, but
normalize applied to the timestamp 0 returns the integer 0 unchanged (the
code tests `if value and ...`, and 0 is falsy), which is not a datetime at
all, let alone the same instant. -/
theorem c9_counterexample :
    scalarNormalize DataType.datetime
        (.str "1970-01-01T00:00:00+00:00".data) =
      .ok (.datetime { epochMicros := 0, tzOffsetSecs := some 0 }) ∧
    scalarNormalize DataType.datetime (.int 0) = .ok (.int 0) ∧
    (PyValue.int 0).isDatetimeInstance = false := by
  refine ⟨?_, ?_, ?_⟩ <;> decide

/-- Claim C9 as amended: a UUID-typed scalar normalizes a canonical
36-character hyphenated UUID string to the equivalent UUID value; and a
datetime-typed scalar given an ISO-8601 string denoting an instant with a
NON-ZERO Unix timestamp and given that timestamp itself normalizes both to
timezone-aware datetimes at the same instant (at timestamp 0 the integer
input is passed through unnormalized). -/
theorem c9_scalar_normalize :
    (∀ n : Nat, n < 2 ^ 128 →
      scalarNormalize DataType.uuid (.str (uuidCanonical n)) = .ok (.uuid n)) ∧
    (∀ (s : PyStr) (d : PyDatetime) (t : Int),
      fromisoformat s = some d →
      d.epochMicros = t * 1000000 →
      t ≠ 0 →
      scalarNormalize DataType.datetime (.str s) = .ok (.datetime d) ∧
      scalarNormalize DataType.datetime (.int t) =
        .ok (.datetime (fromtimestamp t)) ∧
      (fromtimestamp t).epochMicros = d.epochMicros) := by
  constructor
  · intro n hn
    have hne : (uuidCanonical n).isEmpty = false := by
      cases h : uuidCanonical n with
      | nil => exact absurd h (uuidCanonical_ne_nil n)
      | cons a tl => rfl
    have hcond : (DataType.uuid == DataType.uuid &&
        pyTruthy (PyValue.str (uuidCanonical n)) &&
        !(PyValue.str (uuidCanonical n)).isUuidInstance) = true := by
      simp [pyTruthy, PyValue.isUuidInstance, hne]
    unfold scalarNormalize
    rw [hcond, if_pos rfl]
    dsimp only
    rw [pythonUUID_uuidCanonical hn]
  · intro s d t hiso hmicros ht
    have hsne : s.isEmpty = false := by
      cases s with
      | nil => exact Option.noConfusion hiso
      | cons a tl => rfl
    refine ⟨?_, ?_, ?_⟩
    · have hcond : (DataType.datetime == DataType.datetime &&
          pyTruthy (PyValue.str s) &&
          !(PyValue.str s).isDatetimeInstance) = true := by
        simp [pyTruthy, PyValue.isDatetimeInstance, hsne]
      unfold scalarNormalize
      rw [show (DataType.datetime == DataType.uuid &&
          pyTruthy (PyValue.str s) &&
          !(PyValue.str s).isUuidInstance) = false from rfl]
      rw [hcond]
      simp only [Bool.false_eq_true, if_false, if_pos]
      rw [hiso]
    · have hcond : (DataType.datetime == DataType.datetime &&
          pyTruthy (PyValue.int t) &&
          !(PyValue.int t).isDatetimeInstance) = true := by
        simp [pyTruthy, PyValue.isDatetimeInstance, ht]
      unfold scalarNormalize
      rw [show (DataType.datetime == DataType.uuid &&
          pyTruthy (PyValue.int t) &&
          !(PyValue.int t).isUuidInstance) = false from rfl]
      rw [hcond]
      simp only [Bool.false_eq_true, if_false, if_pos]
    · simp [fromtimestamp, hmicros]

/-- Witness for C9: UUID value 5 round-trips through its canonical string,
and the instant 2021-01-01T00:00:00+00:00 (timestamp 1609459200)
normalizes identically from its ISO string and from its timestamp. -/
theorem c9_scalar_normalize_witness :
    scalarNormalize DataType.uuid
        (.str "00000000-0000-0000-0000-000000000005".data) = .ok (.uuid 5) ∧
    scalarNormalize DataType.datetime
        (.str "2021-01-01T00:00:00+00:00".data) =
      .ok (.datetime { epochMicros := 1609459200 * 1000000,
                       tzOffsetSecs := some 0 }) ∧
    scalarNormalize DataType.datetime (.int 1609459200) =
      .ok (.datetime (fromtimestamp 1609459200)) := by
  have h1 := c9_scalar_normalize.1 5 (by decide)
  have h2 := c9_scalar_normalize.2 "2021-01-01T00:00:00+00:00".data
    { epochMicros := 1609459200 * 1000000, tzOffsetSecs := some 0 } 1609459200
    (by decide) rfl (by decide)
  refine ⟨?_, h2.1, h2.2.1⟩
  have hc : uuidCanonical 5 = "00000000-0000-0000-0000-000000000005".data := by
    decide
  rw [← hc]
  exact h1

/-! ### Claim C10: CertChain.to_bytes attribute error -/

/-- Claim C10: for every CertChain built by the constructor (any signed
certificate and any issuer chain, including the empty chain), to_bytes
fails with an AttributeError on the attribute named cert, which the
constructor never stores (it stores the leaf under signed_cert); chain
serialization succeeds through Secret.certchain_as_bytes, which appends
the loaded certificate to the chain. -/
theorem c10_certchain_to_bytes_attribute_error :
    (∀ (sc : PyCert) (chain : List PyCert),
      (CertChain.init sc chain).to_bytes = .error (.attributeError "cert".data)) ∧
    (∀ (s : Secret) (c : PyCert), s.cert = some c →
      Secret.certchain_as_bytes s = .ok (certsBytes (s.cert_chain ++ [c]))) := by
  constructor
  · intro sc chain
    rfl
  · intro s c hc
    unfold Secret.certchain_as_bytes
    rw [hc]

/-- Witness for C10: a one-certificate chain fails through
CertChain.to_bytes but serializes through Secret.certchain_as_bytes. -/
theorem c10_certchain_to_bytes_attribute_error_witness :
    (CertChain.init c7Cert []).to_bytes = .error (.attributeError "cert".data) ∧
    Secret.certchain_as_bytes { cert := some c7Cert } =
      .ok (certsBytes [c7Cert]) :=
  ⟨c10_certchain_to_bytes_attribute_error.1 c7Cert [],
   c10_certchain_to_bytes_attribute_error.2 { cert := some c7Cert } c7Cert rfl⟩

end Byoda
